import Mathlib

/-!
Verification development for the `smart_no_api` script generator and the
`QuestionMatcher` runtime of this repository.

The Python sources are shallowly embedded over `List Char` (one Python `str`
is one `List Char`; one line of code is one `List Char` without `'\n'`).
All definitions are translated from the source files
`src/utils/question_matcher.py` and `src/providers/smart_no_api/generator.py`;
the character classes model the ASCII fragment of Python's `\w` / `\s`
(every concrete string this development evaluates is ASCII).
-/

namespace QMatch

/-- ASCII single quote, written via its code point. -/
def squote : Char := Char.ofNat 39

/-- Python `\s` on ASCII: space, tab, newline, carriage return, form feed,
vertical tab. -/
def isSpaceChar (c : Char) : Bool :=
  c == ' ' || c == '\t' || c == '\n' || c == '\r' || c == '\x0c' || c == '\x0b'

/-- Python `\w` on ASCII: letters, digits and the underscore. -/
def isWordChar (c : Char) : Bool :=
  c.isAlpha || c.isDigit || c == '_'

/-- Python `str.strip()` (no argument): drop whitespace on both ends. -/
def pyStrip (s : List Char) : List Char :=
  ((s.dropWhile isSpaceChar).reverse.dropWhile isSpaceChar).reverse

/-- Python `str.lstrip()`. -/
def pyLstrip (s : List Char) : List Char :=
  s.dropWhile isSpaceChar

/-- `len(line) - len(line.lstrip())`: the leading-whitespace count. -/
def indentOf (s : List Char) : Nat :=
  (s.takeWhile isSpaceChar).length

/-- Left-to-right scanner for `re.sub(r'\s+', ' ', text)`: the flag records
whether the scanner is inside a whitespace run whose single replacement
space was already emitted. -/
def collapseAux : Bool → List Char → List Char
  | _, [] => []
  | inRun, c :: cs =>
    if isSpaceChar c then
      if inRun then collapseAux true cs
      else ' ' :: collapseAux true cs
    else c :: collapseAux false cs

/-- Replace every maximal whitespace run by a single space:
`re.sub(r'\s+', ' ', text)`. -/
def collapseSpaces (s : List Char) : List Char := collapseAux false s

/-- `QuestionMatcher._normalize_text` (question_matcher.py:422-452):
lowercase, delete every character outside `\w` and `\s`
(`re.sub(r'[^\w\s]', '', text)`), collapse whitespace runs to one space,
strip. -/
def normalizeText (s : List Char) : List Char :=
  pyStrip (collapseSpaces
    ((s.map Char.toLower).filter (fun c => isWordChar c || isSpaceChar c)))

/-- `True` when no two adjacent characters of the list are both spaces:
the shape produced by collapsing whitespace runs. -/
def noTwoSpaces : List Char → Bool
  | c :: d :: r => !(c == ' ' && d == ' ') && noTwoSpaces (d :: r)
  | _ => true

/- ------------------------------------------------------------------ -/
/- Helper lemmas about the normalization pipeline.                     -/
/- ------------------------------------------------------------------ -/

theorem toLower_not_upper (c : Char) : (Char.toLower c).isUpper = false := by
  simp only [Char.toLower, Char.isUpper]
  split
  · next h =>
    have hv : (Char.ofNat (c.toNat + 32)).val.toNat = c.toNat + 32 := by
      have hval : Char.isValidCharNat (c.toNat + 32) := by
        left
        omega
      rw [Char.ofNat, dif_pos hval]
      rfl
    have hle : ¬ ((Char.ofNat (c.toNat + 32)).val ≤ 90) := by
      intro hle
      have h2 : (Char.ofNat (c.toNat + 32)).val.toNat ≤ (90 : UInt32).toNat := hle
      rw [hv] at h2
      have h3 : ((90 : UInt32)).toNat = 90 := rfl
      omega
    simp only [ge_iff_le, Bool.and_eq_false_iff, decide_eq_false_iff_not]
    right
    exact hle
  · next h =>
    have hor : c.toNat < 65 ∨ c.toNat > 90 := by omega
    simp only [ge_iff_le, Bool.and_eq_false_iff, decide_eq_false_iff_not]
    rcases hor with h1 | h1
    · left
      intro hge
      have h2 : (65 : UInt32).toNat ≤ c.val.toNat := hge
      have h3 : ((65 : UInt32)).toNat = 65 := rfl
      have h4 : c.val.toNat = c.toNat := rfl
      omega
    · right
      intro hle
      have h2 : c.val.toNat ≤ (90 : UInt32).toNat := hle
      have h3 : ((90 : UInt32)).toNat = 90 := rfl
      have h4 : c.val.toNat = c.toNat := rfl
      omega

theorem head_dropWhile {p : Char → Bool} :
    ∀ {l : List Char} {c : Char}, (l.dropWhile p).head? = some c → p c = false := by
  intro l
  induction l with
  | nil => intro c h; simp [List.dropWhile] at h
  | cons x xs ih =>
    intro c h
    by_cases hp : p x
    · rw [List.dropWhile_cons_of_pos hp] at h
      exact ih h
    · rw [List.dropWhile_cons_of_neg hp] at h
      simp at h
      rw [← h]
      simpa using hp

theorem mem_collapseAux :
    ∀ (l : List Char) (f : Bool) (c : Char), c ∈ collapseAux f l →
      c = ' ' ∨ (isSpaceChar c = false ∧ c ∈ l) := by
  intro l
  induction l with
  | nil => intro f c h; simp [collapseAux] at h
  | cons x xs ih =>
    intro f c h
    rw [collapseAux] at h
    by_cases hx : isSpaceChar x
    · rw [if_pos hx] at h
      cases f with
      | true =>
        rcases ih true c (by simpa using h) with h1 | h1
        · left; exact h1
        · right; exact ⟨h1.1, List.mem_cons_of_mem _ h1.2⟩
      | false =>
        simp only [if_neg (by simp : ¬(false = true))] at h
        rcases List.mem_cons.mp h with h1 | h1
        · left; exact h1
        · rcases ih true c h1 with h2 | h2
          · left; exact h2
          · right; exact ⟨h2.1, List.mem_cons_of_mem _ h2.2⟩
    · rw [if_neg hx] at h
      rcases List.mem_cons.mp h with h1 | h1
      · right
        subst h1
        exact ⟨by simpa using hx, List.mem_cons_self _ _⟩
      · rcases ih false c h1 with h2 | h2
        · left; exact h2
        · right; exact ⟨h2.1, List.mem_cons_of_mem _ h2.2⟩

theorem mem_collapseSpaces :
    ∀ (l : List Char) (c : Char), c ∈ collapseSpaces l →
      c = ' ' ∨ (isSpaceChar c = false ∧ c ∈ l) := by
  intro l c h
  exact mem_collapseAux l false c h

theorem head_collapseAux_true :
    ∀ (l : List Char) (c : Char), (collapseAux true l).head? = some c →
      isSpaceChar c = false := by
  intro l
  induction l with
  | nil => intro c h; simp [collapseAux] at h
  | cons x xs ih =>
    intro c h
    rw [collapseAux] at h
    by_cases hx : isSpaceChar x
    · rw [if_pos hx, if_pos rfl] at h
      exact ih c h
    · rw [if_neg hx] at h
      simp at h
      rw [← h]
      simpa using hx

theorem noTwoSpaces_collapseAux :
    ∀ (l : List Char) (f : Bool), noTwoSpaces (collapseAux f l) = true := by
  intro l
  induction l with
  | nil => intro f; rfl
  | cons x xs ih =>
    intro f
    rw [collapseAux]
    by_cases hx : isSpaceChar x
    · rw [if_pos hx]
      cases f with
      | true => exact ih true
      | false =>
        simp only [if_neg (by simp : ¬(false = true))]
        cases hrec : collapseAux true xs with
        | nil => rfl
        | cons d r =>
          have hd : isSpaceChar d = false := by
            apply head_collapseAux_true xs
            rw [hrec]; rfl
          rw [noTwoSpaces]
          simp only [Bool.and_eq_true, Bool.not_eq_true']
          constructor
          · have : ¬ (d = ' ') := by
              intro he; subst he; simp [isSpaceChar] at hd
            simp [this]
          · rw [← hrec]; exact ih true
    · rw [if_neg hx]
      cases hrec : collapseAux false xs with
      | nil => rfl
      | cons d r =>
        rw [noTwoSpaces]
        simp only [Bool.and_eq_true, Bool.not_eq_true']
        constructor
        · have hxs : isSpaceChar x = false := by simpa using hx
          simp [isSpaceChar] at hxs
          simp [hxs.1]
        · rw [← hrec]; exact ih false

theorem noTwoSpaces_collapseSpaces :
    ∀ (l : List Char), noTwoSpaces (collapseSpaces l) = true := by
  intro l
  exact noTwoSpaces_collapseAux l false

theorem noTwoSpaces_tail :
    ∀ (c : Char) (l : List Char), noTwoSpaces (c :: l) = true → noTwoSpaces l = true := by
  intro c l h
  cases l with
  | nil => rfl
  | cons d r =>
    rw [noTwoSpaces] at h
    simp only [Bool.and_eq_true] at h
    exact h.2

theorem noTwoSpaces_suffix :
    ∀ (t l : List Char), noTwoSpaces (t ++ l) = true → noTwoSpaces l = true := by
  intro t
  induction t with
  | nil => intro l h; simpa using h
  | cons c cs ih =>
    intro l h
    exact ih l (noTwoSpaces_tail c (cs ++ l) (by simpa using h))

theorem noTwoSpaces_prefix :
    ∀ (l t : List Char), noTwoSpaces (l ++ t) = true → noTwoSpaces l = true := by
  intro l
  induction l with
  | nil => intro t h; rfl
  | cons c cs ih =>
    intro t h
    cases cs with
    | nil => rfl
    | cons d r =>
      rw [List.cons_append] at h
      rw [noTwoSpaces]
      simp only [Bool.and_eq_true, Bool.not_eq_true']
      constructor
      · rw [List.cons_append, noTwoSpaces] at h
        simp only [Bool.and_eq_true, Bool.not_eq_true'] at h
        exact h.1
      · exact ih t (noTwoSpaces_tail c ((d :: r) ++ t) h)

/-- `pyStrip s` is a prefix of `s.dropWhile isSpaceChar`. -/
theorem pyStrip_eq_prefix (s : List Char) :
    ∃ t, s.dropWhile isSpaceChar = pyStrip s ++ t := by
  obtain ⟨t, ht⟩ := List.dropWhile_suffix (l := (s.dropWhile isSpaceChar).reverse)
    (p := isSpaceChar)
  refine ⟨t.reverse, ?_⟩
  have := congrArg List.reverse ht
  rw [List.reverse_append, List.reverse_reverse] at this
  rw [pyStrip]
  exact this.symm

theorem head_of_prefix {l t : List Char} {c : Char}
    (h : (l : List Char).head? = some c) : (l ++ t).head? = some c := by
  cases l with
  | nil => simp at h
  | cons x xs => simpa using h

/-- The returned text's last character, if any, is the head of the inner
dropWhile, hence not whitespace. -/
theorem pyStrip_getLast_not_space (s : List Char) (c : Char)
    (h : (pyStrip s).getLast? = some c) : isSpaceChar c = false := by
  rw [pyStrip, List.getLast?_reverse] at h
  exact head_dropWhile h

theorem pyStrip_head_not_space (s : List Char) (c : Char)
    (h : (pyStrip s).head? = some c) : isSpaceChar c = false := by
  obtain ⟨t, ht⟩ := pyStrip_eq_prefix s
  have h2 : (s.dropWhile isSpaceChar).head? = some c := by
    rw [ht]
    exact head_of_prefix h
  exact head_dropWhile h2

theorem mem_pyStrip {s : List Char} {c : Char} (h : c ∈ pyStrip s) : c ∈ s := by
  obtain ⟨t, ht⟩ := pyStrip_eq_prefix s
  have h2 : c ∈ s.dropWhile isSpaceChar := by
    rw [ht]
    exact List.mem_append_left _ h
  exact (List.dropWhile_sublist _).mem h2

theorem noTwoSpaces_pyStrip {s : List Char} (h : noTwoSpaces s = true) :
    noTwoSpaces (pyStrip s) = true := by
  obtain ⟨t, ht⟩ := pyStrip_eq_prefix s
  obtain ⟨u, hu⟩ := List.dropWhile_suffix (l := s) (p := isSpaceChar)
  apply noTwoSpaces_prefix (pyStrip s) t
  rw [← ht]
  apply noTwoSpaces_suffix u
  rw [hu]
  exact h

end QMatch

namespace QMatch

/- ------------------------------------------------------------------ -/
/- C9: properties of the normalization output.                         -/
/- ------------------------------------------------------------------ -/

/-- C9 counterexample: the claim says the normalized string "contains no
character outside letters, digits and whitespace", but `re.sub(r'[^\w\s]', ...)`
keeps the underscore (`\w` is `[A-Za-z0-9_]`): normalizing `"_"` returns `"_"`,
and `'_'` is neither a letter, nor a digit, nor whitespace. -/
theorem c9_counterexample :
    normalizeText ['_'] = ['_'] ∧
    ('_').isAlpha = false ∧ ('_').isDigit = false ∧ isSpaceChar '_' = false := by
  constructor
  · rfl
  · exact ⟨rfl, rfl, rfl⟩

/-- C9 (amended): for every ASCII input, `_normalize_text` returns a string
that is fully lowercase, contains no character outside word characters
(letters, digits, underscore) and the space, has every whitespace run
collapsed to a single space (no two adjacent spaces, and the only whitespace
left is the space character), and has no leading or trailing whitespace. -/
theorem c9_normalize_shape (s : List Char) (hascii : ∀ c ∈ s, c.toNat < 128) :
    (∀ c ∈ normalizeText s,
        (isWordChar c = true ∧ c.isUpper = false) ∨ c = ' ') ∧
    (∀ c, (normalizeText s).head? = some c → isSpaceChar c = false) ∧
    (∀ c, (normalizeText s).getLast? = some c → isSpaceChar c = false) ∧
    noTwoSpaces (normalizeText s) = true := by
  refine ⟨?_, ?_, ?_, ?_⟩
  · intro c hc
    have hc2 := mem_pyStrip hc
    rcases mem_collapseSpaces _ c hc2 with h1 | h1
    · right; exact h1
    · left
      have hmem := h1.2
      rcases List.mem_filter.mp hmem with ⟨hmap, hkeep⟩
      constructor
      · rcases Bool.or_eq_true_iff.mp hkeep with h2 | h2
        · exact h2
        · rw [h2] at h1
          exact absurd h1.1 (by simp)
      · rcases List.mem_map.mp hmap with ⟨d, _, hd⟩
        rw [← hd]
        exact toLower_not_upper d
  · intro c hc
    exact pyStrip_head_not_space _ c hc
  · intro c hc
    exact pyStrip_getLast_not_space _ c hc
  · exact noTwoSpaces_pyStrip (noTwoSpaces_collapseSpaces _)

/-- Witness for `c9_normalize_shape` at a concrete messy input. -/
theorem c9_normalize_shape_witness :
    (∀ c ∈ ("  What IS  your NAME?! ".data), c.toNat < 128) ∧
    noTwoSpaces (normalizeText ("  What IS  your NAME?! ".data)) = true := by
  refine ⟨by decide, (c9_normalize_shape ("  What IS  your NAME?! ".data) (by decide)).2.2.2⟩

end QMatch

namespace QMatch

/- ------------------------------------------------------------------ -/
/- difflib.SequenceMatcher (stdlib, as used by find_question).         -/
/- ------------------------------------------------------------------ -/

/-- Length of the matching run that ends at positions `(i, j)` of `a`/`b`,
clipped at the window starts `alo`/`blo`: the value difflib's
`find_longest_match` dynamic program (`j2len`) associates with `(i, j)`.
The fuel argument is `i + 1`, enough for the structural recursion. -/
def runLenAux (a b : List Char) (alo blo : Nat) : Nat → Nat → Nat → Nat
  | 0, _, _ => 0
  | fuel + 1, i, j =>
    match a.get? i, b.get? j with
    | some x, some y =>
      if x = y then
        if alo < i ∧ blo < j then 1 + runLenAux a b alo blo fuel (i - 1) (j - 1)
        else 1
      else 0
    | _, _ => 0

/-- See `runLenAux`. -/
def runLen (a b : List Char) (alo blo i j : Nat) : Nat :=
  runLenAux a b alo blo (i + 1) i j

/-- `SequenceMatcher.find_longest_match` on the window
`[alo, ahi) × [blo, bhi)`: among all matching runs the longest one wins,
exactly the strict-improvement update order of the CPython loop
(`i` ascending, then `j` ascending, update only on `k > bestsize`,
recorded block `(i-k+1, j-k+1, k)`).
Returns `(start in a, start in b, size)`; `(alo, blo, 0)` when there is no
match.  The junk/autojunk machinery of difflib is the identity for
`len(b) < 200`, which covers every string this development evaluates. -/
def bestScan (a b : List Char) (alo blo : Nat) :
    List (Nat × Nat) → Nat × Nat × Nat → Nat × Nat × Nat
  | [], best => best
  | p :: ps, best =>
    let k := runLen a b alo blo p.1 p.2
    if k > best.2.2 then bestScan a b alo blo ps (p.1, p.2, k)
    else bestScan a b alo blo ps best

/-- See `bestScan`: the full `find_longest_match` of the window. -/
def flm (a b : List Char) (alo ahi blo bhi : Nat) : Nat × Nat × Nat :=
  let pairs := (List.range' alo (ahi - alo)).flatMap (fun i =>
    (List.range' blo (bhi - blo)).map (fun j => (i, j)))
  let best := bestScan a b alo blo pairs (alo, blo, 0)
  if best.2.2 = 0 then (alo, blo, 0)
  else (best.1 + 1 - best.2.2, best.2.1 + 1 - best.2.2, best.2.2)

/-- Total size of the matching blocks of
`SequenceMatcher.get_matching_blocks`: recursively split around the
longest match.  Structural fuel (any value at least the window size
works, the caller passes `|a| + |b| + 1`). -/
def matchTotalAux (a b : List Char) : Nat → Nat → Nat → Nat → Nat → Nat
  | 0, _, _, _, _ => 0
  | fuel + 1, alo, ahi, blo, bhi =>
    let r := flm a b alo ahi blo bhi
    if r.2.2 = 0 then 0
    else matchTotalAux a b fuel alo r.1 blo r.2.1 + r.2.2 +
         matchTotalAux a b fuel (r.1 + r.2.2) ahi (r.2.1 + r.2.2) bhi

/-- See `matchTotalAux`. -/
def matchTotal (a b : List Char) : Nat :=
  matchTotalAux a b (a.length + b.length + 1) 0 a.length 0 b.length

/-- `SequenceMatcher(None, a, b).ratio()`:
`2.0 * M / T` where `M` is the total matched size and `T` the total length
(`1.0` when both strings are empty, per `difflib._calculate_ratio`).
Scores are exact rationals kept as numerator/denominator pairs; Python
compares IEEE doubles, which agree with the exact comparison at every
score/threshold pair this development evaluates. -/
def smScore (a b : List Char) : Nat × Nat :=
  if a.length + b.length = 0 then (1, 1)
  else (2 * matchTotal a b, a.length + b.length)

/-- `x ≤ y` on numerator/denominator pairs (positive denominators). -/
def scoreLe (x y : Nat × Nat) : Bool :=
  x.1 * y.2 ≤ y.1 * x.2

/-- `x < y` on numerator/denominator pairs (positive denominators). -/
def scoreLt (x y : Nat × Nat) : Bool :=
  x.1 * y.2 < y.1 * x.2

/-- The rational value of a score pair, for statements. -/
def scoreQ (s : Nat × Nat) : ℚ :=
  (s.1 : ℚ) / (s.2 : ℚ)

/- ------------------------------------------------------------------ -/
/- The QuestionMatcher state machine (question_matcher.py:23-453).     -/
/- ------------------------------------------------------------------ -/

/-- One heading element of the live page: an opaque locator identity, its
visibility, and its `inner_text`. -/
structure HeadingElem where
  locId : Nat
  visible : Bool
  text : List Char
deriving DecidableEq

/-- The five scopes of `find_answer_button_near_question`'s cascade. -/
inductive BtnScope where
  | parent
  | grandparent
  | greatGrandparent
  | followingSiblings
  | globalScope
deriving DecidableEq

/-- Events the matcher issues against the page-query collaborator. -/
inductive MEvent where
  | enumerate (level : Nat)
  | visCheck (locId : Nat) (timeoutMs : Nat)
  | readText (locId : Nat) (timeoutMs : Nat)
  | btnLookup (scope : BtnScope) (headingLoc : Nat) (name : List Char)
      (exact : Bool) (timeoutMs : Nat)
  | clickEv (locId : Nat) (delayMs : Nat)
  | waitLoadState (state : List Char) (timeoutMs : Nat)
deriving DecidableEq

/-- The page as the matcher sees it: heading elements grouped by tier
(h1..h6), which button (if any) each cascade scope resolves to within its
2-second visibility wait, and whether a click on a given locator succeeds. -/
structure PageModel where
  headings : List (List HeadingElem)
  buttonAt : BtnScope → Nat → List Char → Bool → Option Nat
  clickOk : Nat → Bool

/-- `self.stats` of `QuestionMatcher.__init__`. -/
structure Stats where
  cacheHits : Nat
  cacheMisses : Nat
  questionsFound : Nat
  questionsNotFound : Nat
  totalSearches : Nat
deriving DecidableEq

/-- One entry of `self.heading_pool`. -/
structure PoolEntry where
  locId : Nat
  text : List Char
  normalized : List Char
  level : Nat
deriving DecidableEq

/-- The mutable state of a `QuestionMatcher` instance. -/
structure MatcherState where
  fuzzyThreshold : Nat × Nat
  cacheTtl : Nat
  questionCache : List (List Char × Nat)
  headingPool : List PoolEntry
  lastRefresh : Nat
  stats : Stats
deriving DecidableEq

/-- Python dict membership test + read: `self.question_cache[key]`. -/
def lookupCache (cache : List (List Char × Nat)) (key : List Char) : Option Nat :=
  match cache.find? (fun p => p.1 = key) with
  | some p => some p.2
  | none => none

/-- Python dict assignment `self.question_cache[key] = v`. -/
def cacheInsert (cache : List (List Char × Nat)) (key : List Char) (v : Nat) :
    List (List Char × Nat) :=
  if (cache.find? (fun p => p.1 = key)).isSome then
    cache.map (fun p => if p.1 = key then (key, v) else p)
  else cache ++ [(key, v)]

/-- `QuestionMatcher.refresh_heading_pool` (question_matcher.py:61-110):
TTL-gated; otherwise rebuild the pool with one batched query per tier,
keeping visible elements with nonempty stripped text, and record the
visibility probe (100 ms) and text read (100 ms) issued per element. -/
def rebuiltPool (pg : PageModel) : List PoolEntry :=
  pg.headings.enum.flatMap (fun le =>
    le.2.filterMap (fun e =>
      if e.visible ∧ pyStrip e.text ≠ [] then
        some { locId := e.locId, text := pyStrip e.text,
               normalized := normalizeText (pyStrip e.text), level := le.1 }
      else none))

/-- The page events a (non-TTL-skipped) pool refresh issues: one batched
enumeration per tier, then a visibility probe per element and a text read
for the visible ones, each with a 100 ms timeout. -/
def refreshEvs (pg : PageModel) : List MEvent :=
  pg.headings.enum.flatMap (fun le =>
    MEvent.enumerate le.1 :: le.2.flatMap (fun e =>
      if e.visible then [MEvent.visCheck e.locId 100, MEvent.readText e.locId 100]
      else [MEvent.visCheck e.locId 100]))

/-- See `rebuiltPool`/`refreshEvs` for the rebuild work. -/
def refreshHeadingPool (st : MatcherState) (pg : PageModel) (force : Bool)
    (now : Nat) : MatcherState × List MEvent :=
  if ¬ force ∧ now - st.lastRefresh < st.cacheTtl then (st, [])
  else ({ st with headingPool := rebuiltPool pg, lastRefresh := now }, refreshEvs pg)

/-- The fuzzy scan of `find_question` (question_matcher.py:141-155):
track the best-scoring pool entry, strict improvement only, so the first
entry with the maximal score wins. -/
def scanPoolGo (nq : List Char) :
    List PoolEntry → Option PoolEntry × (Nat × Nat) → Option PoolEntry × (Nat × Nat)
  | [], acc => acc
  | item :: rest, acc =>
    let score := smScore nq item.normalized
    if scoreLt acc.2 score then scanPoolGo nq rest (some item, score)
    else scanPoolGo nq rest acc

/-- See `scanPoolGo`: best match starts as `None` with score `0`. -/
def scanPool (pool : List PoolEntry) (nq : List Char) :
    Option PoolEntry × (Nat × Nat) :=
  scanPoolGo nq pool (none, (0, 1))

/-- `self.stats['total_searches'] += 1` at the top of `find_question`. -/
def bumpSearches (st : MatcherState) : MatcherState :=
  { st with stats := { st.stats with totalSearches := st.stats.totalSearches + 1 } }

/-- `QuestionMatcher.find_question` (question_matcher.py:112-168).
Returns the found locator (or `none`), the updated state, and the page
events issued during the call. -/
def findQuestion (st : MatcherState) (pg : PageModel) (q : List Char)
    (refresh : Bool) (now : Nat) : Option Nat × MatcherState × List MEvent :=
  let st0 := bumpSearches st
  let r1 := if refresh then refreshHeadingPool st0 pg false now else (st0, [])
  let st1 := r1.1
  let evs := r1.2
  let nq := normalizeText q
  match lookupCache st1.questionCache nq with
  | some loc =>
    (some loc,
     { st1 with stats := { st1.stats with cacheHits := st1.stats.cacheHits + 1 } },
     evs)
  | none =>
    let st2 := { st1 with stats := { st1.stats with cacheMisses := st1.stats.cacheMisses + 1 } }
    let sc := scanPool st2.headingPool nq
    match sc.1 with
    | some item =>
      if scoreLe st2.fuzzyThreshold sc.2 then
        (some item.locId,
         { st2 with
             questionCache := cacheInsert st2.questionCache nq item.locId,
             stats := { st2.stats with questionsFound := st2.stats.questionsFound + 1 } },
         evs)
      else
        (none,
         { st2 with stats := { st2.stats with questionsNotFound := st2.stats.questionsNotFound + 1 } },
         evs)
    | none =>
      (none,
       { st2 with stats := { st2.stats with questionsNotFound := st2.stats.questionsNotFound + 1 } },
       evs)

/-- The five strategies of `find_answer_button_near_question`
(question_matcher.py:193-208), in source order. -/
def btnStrategies : List BtnScope :=
  [BtnScope.parent, BtnScope.grandparent, BtnScope.greatGrandparent,
   BtnScope.followingSiblings, BtnScope.globalScope]

/-- The cascade loop of `find_answer_button_near_question`
(question_matcher.py:210-222): try each strategy, wait up to 2000 ms for
visibility, return on the first success. -/
def tryStrategies (pg : PageModel) (heading : Nat) (buttonText : List Char)
    (exact : Bool) : List BtnScope → Option Nat × List MEvent
  | [] => (none, [])
  | s :: rest =>
    let ev := MEvent.btnLookup s heading buttonText exact 2000
    match pg.buttonAt s heading buttonText exact with
    | some b => (some b, [ev])
    | none =>
      let r := tryStrategies pg heading buttonText exact rest
      (r.1, ev :: r.2)

/-- `QuestionMatcher.find_answer_button_near_question`
(question_matcher.py:170-222), with the comma that is missing between the
string `'Grandparent (../..)'` and its lambda on line 198 restored (as
written, that line is a Python `SyntaxError`; the strategy tuples
themselves are complete and ordered). -/
def findAnswerButtonNearQuestion (pg : PageModel) (heading : Nat)
    (buttonText : List Char) (exact : Bool) : Option Nat × List MEvent :=
  tryStrategies pg heading buttonText exact btnStrategies

/-- `QuestionMatcher.answer_question_optimized` (question_matcher.py:224-276):
resolve the question, resolve the button, click with `delay=100` and wait
for `networkidle` up to `click_timeout` (default 5000). -/
def answerQuestionOptimized (st : MatcherState) (pg : PageModel)
    (q buttonText : List Char) (exact : Bool) (now clickTimeout : Nat) :
    Bool × MatcherState × List MEvent :=
  let f := findQuestion st pg q true now
  match f.1 with
  | none => (false, f.2.1, f.2.2)
  | some h =>
    let fb := findAnswerButtonNearQuestion pg h buttonText exact
    match fb.1 with
    | none => (false, f.2.1, f.2.2 ++ fb.2)
    | some b =>
      (pg.clickOk b, f.2.1,
       f.2.2 ++ fb.2 ++ [MEvent.clickEv b 100,
                         MEvent.waitLoadState ("networkidle".data) clickTimeout])

/-- `True` when the trace contains a visibility probe of the locator. -/
def visChecked (evs : List MEvent) (i : Nat) : Bool :=
  evs.any (fun e =>
    match e with
    | MEvent.visCheck j _ => j = i
    | _ => false)

/-- `True` when some heading element of the page carries this locator id. -/
def pageHasLoc (pg : PageModel) (i : Nat) : Bool :=
  pg.headings.any (fun lvl => lvl.any (fun e => e.locId = i))

end QMatch

namespace QMatch

set_option maxRecDepth 100000

/- ------------------------------------------------------------------ -/
/- Helper lemmas about refresh / the button cascade traces.            -/
/- ------------------------------------------------------------------ -/

theorem refresh_questionCache (st : MatcherState) (pg : PageModel)
    (force : Bool) (now : Nat) :
    (refreshHeadingPool st pg force now).1.questionCache = st.questionCache := by
  unfold refreshHeadingPool
  split <;> rfl

theorem refresh_fuzzyThreshold (st : MatcherState) (pg : PageModel)
    (force : Bool) (now : Nat) :
    (refreshHeadingPool st pg force now).1.fuzzyThreshold = st.fuzzyThreshold := by
  unfold refreshHeadingPool
  split <;> rfl

theorem refresh_evs_cases (st : MatcherState) (pg : PageModel)
    (force : Bool) (now : Nat) :
    (refreshHeadingPool st pg force now).2 = [] ∨
    (refreshHeadingPool st pg force now).2 = refreshEvs pg := by
  unfold refreshHeadingPool
  split
  · left; rfl
  · right; rfl

theorem refresh_pool_congr (st st' : MatcherState) (pg : PageModel)
    (force : Bool) (now : Nat)
    (h1 : st.lastRefresh = st'.lastRefresh) (h2 : st.cacheTtl = st'.cacheTtl)
    (h3 : st.headingPool = st'.headingPool) :
    (refreshHeadingPool st pg force now).1.headingPool =
      (refreshHeadingPool st' pg force now).1.headingPool := by
  unfold refreshHeadingPool
  rw [h1, h2]
  by_cases hc : ¬ force ∧ now - st'.lastRefresh < st'.cacheTtl
  · rw [if_pos hc, if_pos hc]
    exact h3
  · rw [if_neg hc, if_neg hc]

/-- No visibility probe of a locator that is not on the page appears in the
refresh trace. -/
theorem visChecked_refreshEvs (pg : PageModel) (i : Nat)
    (hgone : pageHasLoc pg i = false) : visChecked (refreshEvs pg) i = false := by
  rw [visChecked]
  rw [Bool.eq_false_iff]
  intro hany
  rcases List.any_eq_true.mp hany with ⟨ev, hmem, hev⟩
  rcases List.mem_flatMap.mp hmem with ⟨le, hle, hev2⟩
  rcases List.mem_cons.mp hev2 with h1 | h1
  · subst h1; simp at hev
  · rcases List.mem_flatMap.mp h1 with ⟨e, he, hev3⟩
    have hloc : ev = MEvent.visCheck e.locId 100 ∨ ev = MEvent.readText e.locId 100 := by
      by_cases hv : e.visible <;> simp [hv] at hev3 <;> tauto
    have : e.locId = i := by
      rcases hloc with h2 | h2 <;> subst h2 <;> simp at hev <;> exact hev
    rw [Bool.eq_false_iff] at hgone
    apply hgone
    rw [pageHasLoc]
    rw [List.any_eq_true]
    refine ⟨le.2, ?_, ?_⟩
    · have hg := List.mem_enum_iff_getElem?.mp hle
      exact List.getElem?_mem hg
    · rw [List.any_eq_true]
      exact ⟨e, he, by simp [this]⟩

end QMatch

namespace QMatch

set_option maxRecDepth 100000

theorem visChecked_append (a b : List MEvent) (i : Nat) :
    visChecked (a ++ b) i = (visChecked a i || visChecked b i) := by
  simp [visChecked, List.any_append]

theorem visChecked_tryStrategies (pg : PageModel) (h : Nat) (t : List Char)
    (e : Bool) (i : Nat) :
    ∀ ss, visChecked (tryStrategies pg h t e ss).2 i = false := by
  intro ss
  induction ss with
  | nil => rfl
  | cons s rest ih =>
    rw [tryStrategies]
    cases hb : pg.buttonAt s h t e with
    | some b => rfl
    | none =>
      simp only []
      rw [visChecked, List.any_cons]
      rw [visChecked] at ih
      simp only [ih]
      rfl

theorem tryStrategies_result (pg : PageModel) (h : Nat) (t : List Char) (e : Bool) :
    ∀ ss, (tryStrategies pg h t e ss).1 =
      (ss.filterMap (fun s => pg.buttonAt s h t e)).head? := by
  intro ss
  induction ss with
  | nil => rfl
  | cons s rest ih =>
    rw [tryStrategies, List.filterMap_cons]
    cases hb : pg.buttonAt s h t e with
    | some b => rfl
    | none => simpa using ih

theorem tryStrategies_evs_prefix (pg : PageModel) (h : Nat) (t : List Char) (e : Bool) :
    ∀ ss, ∃ rest, ss.map (fun s => MEvent.btnLookup s h t e 2000) =
      (tryStrategies pg h t e ss).2 ++ rest := by
  intro ss
  induction ss with
  | nil => exact ⟨[], rfl⟩
  | cons s tail ih =>
    rw [tryStrategies, List.map_cons]
    cases hb : pg.buttonAt s h t e with
    | some b =>
      exact ⟨tail.map (fun s => MEvent.btnLookup s h t e 2000), rfl⟩
    | none =>
      obtain ⟨rest, hrest⟩ := ih
      exact ⟨rest, by simp [hrest]⟩

theorem tryStrategies_evs_all (pg : PageModel) (h : Nat) (t : List Char) (e : Bool) :
    ∀ ss, (tryStrategies pg h t e ss).1 = none →
      (tryStrategies pg h t e ss).2 =
        ss.map (fun s => MEvent.btnLookup s h t e 2000) := by
  intro ss
  induction ss with
  | nil => intro _; rfl
  | cons s tail ih =>
    intro hnone
    rw [tryStrategies] at hnone ⊢
    cases hb : pg.buttonAt s h t e with
    | some b => rw [hb] at hnone; simp at hnone
    | none =>
      rw [hb] at hnone
      simp only [List.map_cons, List.cons.injEq, true_and]
      exact ih (by simpa using hnone)

/- ------------------------------------------------------------------ -/
/- C1: the five-strategy button cascade.                               -/
/- ------------------------------------------------------------------ -/

/-- C1: `find_answer_button_near_question` (modelled with the missing comma
of question_matcher.py:198 restored) tries the five scopes parent,
grandparent, great-grandparent, following-siblings, global — in that fixed
order; every attempt is a role=button lookup with the caller's `exact` flag
and a 2000 ms visibility wait; the first scope that resolves wins and
`None` is returned only after all five attempts were made. -/
theorem c1_button_cascade (pg : PageModel) (h : Nat) (t : List Char) (e : Bool) :
    (findAnswerButtonNearQuestion pg h t e).1 =
      (btnStrategies.filterMap (fun s => pg.buttonAt s h t e)).head? ∧
    (∃ rest, btnStrategies.map (fun s => MEvent.btnLookup s h t e 2000) =
      (findAnswerButtonNearQuestion pg h t e).2 ++ rest) ∧
    ((findAnswerButtonNearQuestion pg h t e).1 = none →
      (findAnswerButtonNearQuestion pg h t e).2 =
        btnStrategies.map (fun s => MEvent.btnLookup s h t e 2000)) := by
  refine ⟨tryStrategies_result pg h t e btnStrategies,
          tryStrategies_evs_prefix pg h t e btnStrategies,
          tryStrategies_evs_all pg h t e btnStrategies⟩

/-- A page on which no scope resolves a button. -/
def c1Page : PageModel :=
  { headings := [[], [], [], [], [], []],
    buttonAt := fun _ _ _ _ => none,
    clickOk := fun _ => false }

/-- Witness for `c1_button_cascade`: on `c1Page` every strategy fails, the
result is `None`, and the trace consists of exactly the five attempts in
the fixed order. -/
theorem c1_button_cascade_witness :
    (findAnswerButtonNearQuestion c1Page 3 ("Next".data) false).1 = none ∧
    (findAnswerButtonNearQuestion c1Page 3 ("Next".data) false).2 =
      btnStrategies.map (fun s => MEvent.btnLookup s 3 ("Next".data) false 2000) :=
  ⟨by decide, (c1_button_cascade c1Page 3 ("Next".data) false).2.2 (by decide)⟩

/- ------------------------------------------------------------------ -/
/- C2: scenario B at threshold 0.90.                                   -/
/- ------------------------------------------------------------------ -/

/-- The pool of §8 scenario B: one h2 heading with the exact text
"What is your favorite color?". -/
def c2Page : PageModel :=
  { headings := [[], [{ locId := 5, visible := true,
                        text := ("What is your favorite color?".data) }],
                 [], [], [], []],
    buttonAt := fun _ _ _ _ => none,
    clickOk := fun _ => false }

/-- A fresh matcher with `fuzzy_threshold = 0.90`. -/
def c2State : MatcherState :=
  { fuzzyThreshold := (9, 10), cacheTtl := 5, questionCache := [],
    headingPool := [], lastRefresh := 0,
    stats := { cacheHits := 0, cacheMisses := 0, questionsFound := 0,
               questionsNotFound := 0, totalSearches := 0 } }

/-- C2 counterexample: the claim predicts a best similarity strictly below
0.90 and a "not found" result, but `find_question("What is ur favorite
color?")` against the scenario-B pool at threshold 0.90 finds the heading:
the `SequenceMatcher` similarity is 50/52 ≈ 0.9615 ≥ 0.90. -/
theorem c2_counterexample :
    (findQuestion c2State c2Page ("What is ur favorite color?".data) true 10).1 = some 5 ∧
    scoreLe (9, 10)
      ((scanPool (rebuiltPool c2Page)
        (normalizeText ("What is ur favorite color?".data))).2) = true := by
  constructor
  · decide
  · decide

/-- C2 (amended): the similarity between the normalized query and the
normalized pool entry is 50/52 = 25/26 ≈ 0.962 ≥ 0.90, so `find_question`
returns the matched heading (and caches it). -/
theorem c2_match_found :
    smScore (normalizeText ("What is ur favorite color?".data))
        (normalizeText ("What is your favorite color?".data)) = (50, 52) ∧
    scoreQ (50, 52) = 25/26 ∧ ((9 : ℚ)/10 ≤ 25/26) ∧
    (findQuestion c2State c2Page ("What is ur favorite color?".data) true 10).1 = some 5 ∧
    (findQuestion c2State c2Page ("What is ur favorite color?".data) true 10).2.1.questionCache =
      [(normalizeText ("What is ur favorite color?".data), 5)] := by
  refine ⟨by decide, ?_, by norm_num, by decide, by decide⟩
  rw [scoreQ]
  norm_num

end QMatch

namespace QMatch

set_option maxRecDepth 100000

/- ------------------------------------------------------------------ -/
/- C3: cache hits are not revalidated.                                 -/
/- ------------------------------------------------------------------ -/

/-- A page from which the cached heading has disappeared; a global button
lookup still resolves. -/
def c3Page : PageModel :=
  { headings := [[], [], [], [], [], []],
    buttonAt := fun s _ _ _ => if s = BtnScope.globalScope then some 500 else none,
    clickOk := fun _ => true }

/-- A matcher whose question cache maps "whats your name" to the stale
locator 99. -/
def c3State : MatcherState :=
  { fuzzyThreshold := (3, 4), cacheTtl := 5,
    questionCache := [(("whats your name").data, 99)],
    headingPool := [], lastRefresh := 0,
    stats := { cacheHits := 0, cacheMisses := 0, questionsFound := 0,
               questionsNotFound := 0, totalSearches := 0 } }

/-- C3 counterexample: with locator 99 cached for the query but gone from
the page, `find_question` returns the stale handle with no visibility or
liveness probe of it anywhere in the trace, and
`answer_question_optimized` goes on to click a globally-found button —
the cached handle is used without any revalidation. -/
theorem c3_counterexample :
    (findQuestion c3State c3Page ("What\x27s your name?".data) true 3).1 = some 99 ∧
    visChecked (findQuestion c3State c3Page ("What\x27s your name?".data) true 3).2.2 99 = false ∧
    (answerQuestionOptimized c3State c3Page ("What\x27s your name?".data)
      ("Next".data) false 3 5000).1 = true ∧
    visChecked (answerQuestionOptimized c3State c3Page ("What\x27s your name?".data)
      ("Next".data) false 3 5000).2.2 99 = false ∧
    pageHasLoc c3Page 99 = false := by
  refine ⟨by decide, by decide, by decide, by decide, by decide⟩

/-- C3 (amended): whenever `find_question` hits the question cache, the
stored locator is returned immediately, and — when its element is no
longer on the page — neither `find_question` nor the full
`answer_question_optimized` call issues any visibility/liveness check of
it: a cache hit is used without revalidation. -/
theorem c3_cache_hit_no_revalidation (st : MatcherState) (pg : PageModel)
    (q btn : List Char) (ex : Bool) (now ct : Nat) (loc : Nat)
    (hhit : lookupCache st.questionCache (normalizeText q) = some loc)
    (hgone : pageHasLoc pg loc = false) :
    (findQuestion st pg q true now).1 = some loc ∧
    visChecked (findQuestion st pg q true now).2.2 loc = false ∧
    visChecked (answerQuestionOptimized st pg q btn ex now ct).2.2 loc = false := by
  have hfq : ∀ now', (findQuestion st pg q true now').1 = some loc ∧
      visChecked (findQuestion st pg q true now').2.2 loc = false := by
    intro now'
    rw [findQuestion]
    simp only [if_pos rfl, if_true]
    have hc : lookupCache
        ((refreshHeadingPool (bumpSearches st) pg false now').1.questionCache)
        (normalizeText q) = some loc := by
      rw [refresh_questionCache]
      exact hhit
    rw [hc]
    refine ⟨rfl, ?_⟩
    rcases refresh_evs_cases (bumpSearches st) pg false now' with hevs | hevs <;> rw [hevs]
    · rfl
    · exact visChecked_refreshEvs pg loc hgone
  refine ⟨(hfq now).1, (hfq now).2, ?_⟩
  rw [answerQuestionOptimized]
  rw [(hfq now).1]
  simp only []
  cases hfb : (findAnswerButtonNearQuestion pg loc btn ex).1 with
  | none =>
    rw [visChecked_append]
    rw [(hfq now).2]
    rw [findAnswerButtonNearQuestion] at hfb ⊢
    rw [visChecked_tryStrategies]
    rfl
  | some b =>
    rw [visChecked_append, visChecked_append]
    rw [(hfq now).2]
    rw [findAnswerButtonNearQuestion]
    rw [visChecked_tryStrategies]
    rfl

/-- Witness for `c3_cache_hit_no_revalidation` at the concrete stale state. -/
theorem c3_cache_hit_no_revalidation_witness :
    lookupCache c3State.questionCache
      (normalizeText ("What\x27s your name?".data)) = some 99 ∧
    visChecked (answerQuestionOptimized c3State c3Page ("What\x27s your name?".data)
      ("Go".data) true 3 5000).2.2 99 = false :=
  ⟨by decide,
   (c3_cache_hit_no_revalidation c3State c3Page ("What\x27s your name?".data)
     ("Go".data) true 3 5000 99 (by decide) (by decide)).2.2⟩

/- ------------------------------------------------------------------ -/
/- C4: below-threshold search returns "not found".                     -/
/- ------------------------------------------------------------------ -/

theorem scoreLt_not_le (x y : Nat × Nat) (h : scoreLt x y = true) :
    scoreLe y x = false := by
  rw [scoreLt] at h
  rw [scoreLe]
  simp only [decide_eq_true_eq] at h
  simp only [decide_eq_false_iff_not]
  omega

/-- A matcher with a cached entry for "whats your name" and an empty pool. -/
def c4State : MatcherState :=
  { fuzzyThreshold := (3, 4), cacheTtl := 5,
    questionCache := [(("whats your name").data, 7)],
    headingPool := [], lastRefresh := 0,
    stats := { cacheHits := 0, cacheMisses := 0, questionsFound := 0,
               questionsNotFound := 0, totalSearches := 0 } }

/-- An empty page. -/
def c4Page : PageModel :=
  { headings := [[], [], [], [], [], []],
    buttonAt := fun _ _ _ _ => none,
    clickOk := fun _ => false }

/-- C4 counterexample: the claim quantifies over every cache state, but a
cache hit short-circuits the scan: with "whats your name" cached and an
empty pool (best similarity 0 < 3/4), `find_question` still returns the
cached locator, not "not found". -/
theorem c4_counterexample :
    (findQuestion c4State c4Page ("What\x27s your name?".data) true 3).1 = some 7 ∧
    scoreLt (scanPool c4State.headingPool
      (normalizeText ("What\x27s your name?".data))).2 c4State.fuzzyThreshold = true := by
  refine ⟨by decide, by decide⟩

/-- C4 (amended): for every query that misses the question cache, if the
best similarity over the current heading pool (the pool `find_question`
scans after its TTL-gated refresh) is below `fuzzy_threshold`, then
`find_question` returns `None` and the question cache is left unchanged —
it is populated only on an above-threshold match.  (The embedding is a
total function: no exception is raised on this path.) -/
theorem c4_below_threshold (st : MatcherState) (pg : PageModel)
    (q : List Char) (now : Nat)
    (hmiss : lookupCache st.questionCache (normalizeText q) = none)
    (hlow : scoreLt (scanPool
        (refreshHeadingPool st pg false now).1.headingPool (normalizeText q)).2
      st.fuzzyThreshold = true) :
    (findQuestion st pg q true now).1 = none ∧
    (findQuestion st pg q true now).2.1.questionCache = st.questionCache := by
  rw [findQuestion]
  simp only [if_pos rfl, if_true]
  have hc : lookupCache
      ((refreshHeadingPool (bumpSearches st) pg false now).1.questionCache)
      (normalizeText q) = none := by
    rw [refresh_questionCache]
    exact hmiss
  rw [hc]
  simp only []
  have hpool : (refreshHeadingPool (bumpSearches st) pg false now).1.headingPool =
      (refreshHeadingPool st pg false now).1.headingPool :=
    refresh_pool_congr _ _ pg false now rfl rfl rfl
  rw [hpool]
  have hthr : (refreshHeadingPool (bumpSearches st) pg false now).1.fuzzyThreshold =
      st.fuzzyThreshold := by
    rw [refresh_fuzzyThreshold]
    rfl
  cases hsc : (scanPool (refreshHeadingPool st pg false now).1.headingPool
      (normalizeText q)).1 with
  | some item =>
    rw [hthr]
    rw [scoreLt_not_le _ _ hlow]
    simp only [Bool.false_eq_true, if_false]
    refine ⟨trivial, ?_⟩
    show (refreshHeadingPool (bumpSearches st) pg false now).1.questionCache =
      st.questionCache
    rw [refresh_questionCache]
    rfl
  | none =>
    refine ⟨rfl, ?_⟩
    show (refreshHeadingPool (bumpSearches st) pg false now).1.questionCache =
      st.questionCache
    rw [refresh_questionCache]
    rfl

/-- Witness for `c4_below_threshold`: an uncached query against an empty
pool scores 0 < 0.75 and is reported "not found" with the cache intact. -/
theorem c4_below_threshold_witness :
    lookupCache c4State.questionCache (normalizeText ("Another question".data)) = none ∧
    (findQuestion c4State c4Page ("Another question".data) true 3).1 = none ∧
    (findQuestion c4State c4Page ("Another question".data) true 3).2.1.questionCache =
      c4State.questionCache :=
  ⟨by decide,
   (c4_below_threshold c4State c4Page ("Another question".data) 3 (by decide) (by decide)).1,
   (c4_below_threshold c4State c4Page ("Another question".data) 3 (by decide) (by decide)).2⟩

end QMatch

namespace Gen

open QMatch (isSpaceChar isWordChar pyStrip pyLstrip indentOf squote)

/- ------------------------------------------------------------------ -/
/- String-level helpers for the generator                              -/
/- (src/providers/smart_no_api/generator.py).                          -/
/- ------------------------------------------------------------------ -/

/-- `user_code.replace('\t', '    ')` (generator.py:539). -/
def tabNorm (s : List Char) : List Char :=
  s.flatMap (fun c => if c == '\t' then ("    ".data) else [c])

/-- Python `str.split('\n')`. -/
def splitLines : List Char → List (List Char)
  | [] => [[]]
  | c :: r =>
    if c == '\n' then [] :: splitLines r
    else
      match splitLines r with
      | t :: ts => (c :: t) :: ts
      | [] => [[c]]

/-- Python `'\n'.join(lines)`. -/
def joinLines (ls : List (List Char)) : List Char :=
  List.intercalate ['\n'] ls

/-- Try a position-wise matcher at every position, left to right:
the scan of `re.search`. -/
def searchAt {α : Type} (f : List Char → Option α) : List Char → Option α
  | [] => f []
  | s@(_ :: t) =>
    match f s with
    | some a => some a
    | none => searchAt f t

/-- `True` at some position, left to right. -/
def anyPos (f : List Char → Bool) : List Char → Bool
  | [] => f []
  | s@(_ :: t) => f s || anyPos f t

/-- Python `pat in hay`. -/
def containsSub (hay pat : List Char) : Bool :=
  anyPos (fun s => pat.isPrefixOf s) hay

/-- Python `str.lower()` (ASCII). -/
def lowerStr (s : List Char) : List Char :=
  s.map Char.toLower

/-- Either regex quote class `["\']`. -/
def isQuote (c : Char) : Bool := c == '"' || c == squote

/-- Consume an exact literal. -/
def dropLit (lit s : List Char) : Option (List Char) :=
  if lit.isPrefixOf s then some (s.drop lit.length) else none

/-- Consume one `["\']` quote. -/
def dropQuote : List Char → Option (List Char)
  | c :: r => if isQuote c then some r else none
  | [] => none

/-- The quote-free capture `([^"\']+)["\']`: a nonempty maximal run of
non-quote characters that is followed by a quote. -/
def captureToQuote (s : List Char) : Option (List Char) :=
  let t := s.takeWhile (fun c => !(isQuote c))
  if !t.isEmpty &&
      (match s.drop t.length with | c :: _ => isQuote c | [] => false) then some t
  else none

/-- One position of
`re.search(r'get_by_role\(["\']heading["\']\s*,\s*name=["\']([^"\']+)["\']', s)`
(generator.py:596): the `\s*`/`\w+`/`[^"\']+` pieces are deterministic
(maximal munch with a mandatory distinct follower), so no backtracking
arises. -/
def matchHeadingAt (s : List Char) : Option (List Char) :=
  (dropLit ("get_by_role(".data) s).bind (fun r1 =>
  (dropQuote r1).bind (fun r2 =>
  (dropLit ("heading".data) r2).bind (fun r3 =>
  (dropQuote r3).bind (fun r4 =>
  (dropLit (",".data) (r4.dropWhile isSpaceChar)).bind (fun r6 =>
  (dropLit ("name=".data) (r6.dropWhile isSpaceChar)).bind (fun r8 =>
  (dropQuote r8).bind captureToQuote))))))

/-- One position of `re.search(r'(page\d+)\.', s)` (generator.py:781). -/
def matchPageVarAt (s : List Char) : Option (List Char) :=
  (dropLit ("page".data) s).bind (fun r =>
    let ds := r.takeWhile Char.isDigit
    if !ds.isEmpty &&
        (match r.drop ds.length with | c :: _ => c == '.' | [] => false) then
      some (("page".data) ++ ds)
    else none)

/-- One position of `re.search(r'\.get_by_\w+\([^)]+\)', s)` (generator.py:784). -/
def matchGetBySelAt (s : List Char) : Bool :=
  match dropLit (".get_by_".data) s with
  | none => false
  | some r =>
    let w := r.takeWhile isWordChar
    if w.isEmpty then false
    else
      match r.drop w.length with
      | '(' :: r2 =>
        let body := r2.takeWhile (fun c => !(c == ')'))
        !body.isEmpty &&
          (match r2.drop body.length with | ')' :: _ => true | _ => false)
      | _ => false

/-- One position of `re.search(r'\.locator\([^)]+\)', s)` (generator.py:784). -/
def matchLocatorSelAt (s : List Char) : Bool :=
  match dropLit (".locator(".data) s with
  | none => false
  | some r2 =>
    let body := r2.takeWhile (fun c => !(c == ')'))
    !body.isEmpty &&
      (match r2.drop body.length with | ')' :: _ => true | _ => false)

/-- `has_selector` (generator.py:784-785). -/
def hasSelector (s : List Char) : Bool :=
  anyPos matchGetBySelAt s || anyPos matchLocatorSelAt s

/-- One position of `re.search(r'(\w+)\s*=\s*page\d+_info\.value', s)`
(generator.py:871). -/
def matchAssignVarAt (s : List Char) : Option (List Char) :=
  let w := s.takeWhile isWordChar
  if w.isEmpty then none
  else
    (dropLit ("=".data) ((s.drop w.length).dropWhile isSpaceChar)).bind (fun r2 =>
    (dropLit ("page".data) (r2.dropWhile isSpaceChar)).bind (fun r4 =>
      let ds := r4.takeWhile Char.isDigit
      if !ds.isEmpty && ("_info.value".data).isPrefixOf (r4.drop ds.length) then some w
      else none))

/-- One position of
`re.search(r'get_by_role\(["\'](\w+)["\']\s*,\s*name=["\']([^"\']+)["\']', s)`
(generator.py:1000). -/
def matchRoleNameAt (s : List Char) : Option (List Char × List Char) :=
  (dropLit ("get_by_role(".data) s).bind (fun r1 =>
  (dropQuote r1).bind (fun r2 =>
    let role := r2.takeWhile isWordChar
    if role.isEmpty then none
    else
      (dropQuote (r2.drop role.length)).bind (fun r3 =>
      (dropLit (",".data) (r3.dropWhile isSpaceChar)).bind (fun r5 =>
      (dropLit ("name=".data) (r5.dropWhile isSpaceChar)).bind (fun r7 =>
      (dropQuote r7).bind (fun r8 =>
      (captureToQuote r8).map (fun nm => (role, nm))))))))

/-- One position of `re.search(r'LIT["\']([^"\']+)["\']', s)` for the
`get_by_text(` / `get_by_placeholder(` / `locator(` patterns of
`_extract_action_description` (generator.py:1007-1020). -/
def matchQuotedAfterAt (lit : List Char) (s : List Char) : Option (List Char) :=
  (dropLit lit s).bind (fun r1 =>
  (dropQuote r1).bind captureToQuote)

/-- Python `str.find(sub)` restricted to present substrings: index of the
leftmost occurrence (0 when absent; the callers guard with `in`). -/
def findSub : List Char → List Char → Nat
  | _, [] => 0
  | [], _ => 0
  | s@(_ :: t), pat =>
    if pat.isPrefixOf s then 0 else 1 + findSub t pat

/-- `action_desc.replace('"', '\\"')` (generator.py:760).  The two
preceding `.replace("'", "'")` calls in the source substitute an ASCII
apostrophe for itself (the file stores plain apostrophes), so they are the
identity, as is the `sanitized_code`/`sanitized_line` pair built from
them. -/
def escDQ (s : List Char) : List Char :=
  s.flatMap (fun c => if c == '"' then ['\\', '"'] else [c])

/-- `Generator._extract_action_description` (generator.py:993-1036). -/
def extractActionDescription (line : List Char) : List Char :=
  match searchAt matchRoleNameAt line with
  | some rn =>
    let action := if containsSub line (".click(".data) then ("click".data)
      else if containsSub line (".fill(".data) then ("fill".data)
      else ("action".data)
    action ++ (" ".data) ++ rn.1 ++ (" \x27".data) ++ rn.2 ++ ("\x27".data)
  | none =>
  match searchAt (matchQuotedAfterAt ("get_by_text(".data)) line with
  | some t =>
    let action := if containsSub line (".click(".data) then ("click".data)
      else ("action".data)
    action ++ (" text \x27".data) ++ t ++ ("\x27".data)
  | none =>
  match searchAt (matchQuotedAfterAt ("get_by_placeholder(".data)) line with
  | some p => ("fill placeholder \x27".data) ++ p ++ ("\x27".data)
  | none =>
  match searchAt (matchQuotedAfterAt ("locator(".data)) line with
  | some sel =>
    let action := if containsSub line (".click(".data) then ("click".data)
      else if containsSub line (".fill(".data) then ("fill".data)
      else ("action".data)
    action ++ (" \x27".data) ++ sel ++ ("\x27".data)
  | none =>
    if containsSub line (".click(".data) then ("click element".data)
    else if containsSub line (".fill(".data) then ("fill field".data)
    else if containsSub line (".select_option(".data) then ("select option".data)
    else if containsSub line (".check(".data) then ("check checkbox".data)
    else ("action".data)

end Gen

namespace Gen

open QMatch (isSpaceChar isWordChar pyStrip pyLstrip indentOf squote)

/- ------------------------------------------------------------------ -/
/- Output-line blocks emitted by `_wrap_actions_for_resilience`.        -/
/- ------------------------------------------------------------------ -/

/-- The catch-and-continue wrapper for a resilient action
(generator.py:766-771). -/
def resilientBlock (indentStr code desc : List Char) : List (List Char) :=
  [indentStr ++ ("try:".data),
   indentStr ++ ("    ".data) ++ code,
   indentStr ++ ("except PlaywrightTimeout:".data),
   indentStr ++ ("    print(f\"[ACTION] [WARNING] Timeout: ".data) ++ desc ++ ("\")".data),
   indentStr ++ ("    print(f\"[ACTION] [INFO] Элемент не найден - возможно другой вариант флоу, продолжаем...\")".data),
   indentStr ++ ("    pass  # Continue execution".data)]

/-- The generation-time "optional expandable button" keywords
(generator.py:830). -/
def optionalKeywords : List (List Char) :=
  [("show more".data), ("see more".data), ("load more".data), ("view more".data),
   ("expand".data), ("показать больше".data)]

/-- The 5-attempt progressive-delay retry wrapper for critical popup-page
actions (generator.py:787-851): `page_var` from the first `page\d+\.`
occurrence (default `page1`); before every retry the popup waits for
`domcontentloaded`, scrolls to the bottom and back to the middle; a
selector click is first scrolled into view with a 3000 ms timeout; on the
final timeout the failure is re-raised unless the action description
matches an optional-button keyword.  `pageVarOf` is the
`page_var` extraction of generator.py:780-781 (first match, default
`page1`). -/
def pageVarOf (stripped : List Char) : List Char :=
  match searchAt matchPageVarAt stripped with
  | some v => v
  | none => ("page1".data)

/-- See `pageVarOf`: the emitted retry block itself. -/
def popupRetryBlock (indentStr stripped desc : List Char) : List (List Char) :=
  let pv := pageVarOf stripped
  let hasSel := hasSelector stripped
  let withElem := hasSel && containsSub stripped (".click()".data)
  let elementPart := pyStrip (stripped.take (findSub stripped (".click()".data)))
  let isOpt := optionalKeywords.any (fun k => containsSub (lowerStr desc) k)
  [indentStr ++ ("# Retry logic for popup page action with progressive delays and smart scrolling".data),
   indentStr ++ ("max_retries = 5".data),
   indentStr ++ ("progressive_delays = [5, 10, 15, 20, 30]  # Progressive delays in seconds".data),
   indentStr ++ ("for retry_attempt in range(max_retries):".data),
   indentStr ++ ("    try:".data),
   indentStr ++ ("        if retry_attempt > 0:".data),
   indentStr ++ ("            delay = progressive_delays[retry_attempt - 1]".data),
   indentStr ++ ("            print(f\"[POPUP_RETRY] Attempt \x7bretry_attempt+1\x7d/\x7bmax_retries\x7d (waiting \x7bdelay\x7ds): ".data) ++ desc ++ ("\")".data),
   indentStr ++ ("            time.sleep(delay)".data),
   indentStr ++ ("            # Wait for page to stabilize".data),
   indentStr ++ ("            ".data) ++ pv ++ (".wait_for_load_state(\x27domcontentloaded\x27, timeout=5000)".data),
   indentStr ++ ("            # Scroll to bottom first to trigger lazy loading".data),
   indentStr ++ ("            ".data) ++ pv ++ (".evaluate(\x27window.scrollTo(0, document.body.scrollHeight)\x27)".data),
   indentStr ++ ("            time.sleep(0.5)".data),
   indentStr ++ ("            # Scroll back to middle for element visibility".data),
   indentStr ++ ("            ".data) ++ pv ++ (".evaluate(\x27window.scrollTo(0, document.body.scrollHeight / 2)\x27)".data),
   indentStr ++ ("            time.sleep(0.3)".data)]
  ++ (if withElem then
      [indentStr ++ ("        # Scroll element into view if needed".data),
       indentStr ++ ("        try:".data),
       indentStr ++ ("            element = ".data) ++ elementPart,
       indentStr ++ ("            element.scroll_into_view_if_needed(timeout=3000)".data),
       indentStr ++ ("            time.sleep(0.2)  # Wait for scroll animation".data),
       indentStr ++ ("            print(f\"[POPUP_ACTION] Element scrolled into view\")".data),
       indentStr ++ ("        except:".data),
       indentStr ++ ("            print(f\"[POPUP_ACTION] [WARNING] Could not scroll element into view, attempting anyway...\")".data),
       indentStr ++ ("            pass".data),
       indentStr ++ ("        element.click()".data)]
    else
      [indentStr ++ ("        ".data) ++ stripped])
  ++ [indentStr ++ ("        print(f\"[POPUP_ACTION] [OK] ".data) ++ desc ++ ("\")".data),
      indentStr ++ ("        break  # Success - exit retry loop".data),
      indentStr ++ ("    except PlaywrightTimeout:".data),
      indentStr ++ ("        if retry_attempt == max_retries - 1:".data),
      indentStr ++ ("            print(f\"[POPUP_ACTION] [ERROR] Failed after \x7bmax_retries\x7d attempts (total \x7bsum(progressive_delays)\x7ds): ".data) ++ desc ++ ("\")".data)]
  ++ (if isOpt then
      [indentStr ++ ("            # Smart detection: This appears to be an optional expandable button".data),
       indentStr ++ ("            print(f\"[POPUP_ACTION] [INFO] Button may not exist if content already loaded\")".data),
       indentStr ++ ("            print(f\"[POPUP_ACTION] [INFO] Checking page state...\")".data),
       indentStr ++ ("            try:".data),
       indentStr ++ ("                ".data) ++ pv ++ (".wait_for_load_state(\x27domcontentloaded\x27, timeout=3000)".data),
       indentStr ++ ("                print(f\"[POPUP_ACTION] [OK] Page stable - content likely already loaded, continuing...\")".data),
       indentStr ++ ("            except:".data),
       indentStr ++ ("                print(f\"[POPUP_ACTION] [WARNING] Page check failed but treating as optional\")".data),
       indentStr ++ ("            break  # Continue execution without raising error".data)]
    else
      [indentStr ++ ("            raise  # Re-raise on final attempt for critical buttons".data)])
  ++ [indentStr ++ ("        else:".data),
      indentStr ++ ("            print(f\"[POPUP_RETRY] Timeout on attempt \x7bretry_attempt+1\x7d, retrying with longer delay...\")".data),
      indentStr ++ ("            continue".data)]

/-- The stabilization block auto-inserted after a popup-handle assignment
(generator.py:876-892). -/
def popupAssignBlock (indentStr pv : List Char) : List (List Char) :=
  [indentStr ++ ("# Wait for popup page to load and stabilize".data),
   indentStr ++ ("time.sleep(1.5)  # Extended wait for popup to fully load".data),
   indentStr ++ pv ++ (".wait_for_load_state(\x27domcontentloaded\x27)".data),
   indentStr ++ ("try:".data),
   indentStr ++ ("    ".data) ++ pv ++ (".wait_for_load_state(\x27networkidle\x27, timeout=10000)".data),
   indentStr ++ ("    print(f\"[POPUP] Network stabilized on ".data) ++ pv ++ ("\")".data),
   indentStr ++ ("except:".data),
   indentStr ++ ("    print(f\"[POPUP] Network idle timeout - continuing anyway\")".data),
   indentStr ++ ("    pass".data),
   indentStr ++ ("# Scroll down to load bottom elements (like \x27See more\x27)".data),
   indentStr ++ pv ++ (".evaluate(\x27window.scrollTo(0, document.body.scrollHeight)\x27)".data),
   indentStr ++ ("time.sleep(0.5)".data),
   indentStr ++ ("# Scroll to middle position (50%) for element visibility".data),
   indentStr ++ pv ++ (".evaluate(\x27window.scrollTo(0, document.body.scrollHeight / 2)\x27)".data),
   indentStr ++ ("time.sleep(0.3)".data),
   indentStr ++ ("print(f\"[POPUP] [OK] ".data) ++ pv ++ (" page loaded and scrolled to middle position\")".data),
   indentStr ++ ("print(f\"[POPUP] Elements at 50-75% position should now be visible\")".data)]

/-- `re.match(r'#pause(\d+)', comment_lower)` (generator.py:921): anchored
at the start, captures the digit run. -/
def matchPause (s : List Char) : Option (List Char) :=
  if ("#pause".data).isPrefixOf s then
    let ds := (s.drop 6).takeWhile Char.isDigit
    if ds.isEmpty then none else some ds
  else none

/-- `Generator._handle_special_command` (generator.py:898-991): `some`
with the appended lines when the comment is a handled directive, `none`
for `#optional` and ordinary comments. -/
def handleSpecialCommand (comment indentStr pageCtx : List Char) :
    Option (List (List Char)) :=
  let commentLower := pyStrip (lowerStr comment)
  match matchPause commentLower with
  | some seconds =>
    some [indentStr ++ ("# User command: pause ".data) ++ seconds ++ (" seconds".data),
          indentStr ++ ("print(f\x27[PAUSE] Waiting ".data) ++ seconds ++ (" seconds...\x27)".data),
          indentStr ++ ("time.sleep(".data) ++ seconds ++ (")".data),
          indentStr ++ ("print(f\x27[PAUSE] Resume\x27)".data)]
  | none =>
  if commentLower == ("#toggle_switches".data) then
    some [indentStr ++ ("# User command: toggle switches".data),
          indentStr ++ ("print(f\x27[SWITCHES] Toggling switches on ".data) ++ pageCtx ++ ("...\x27)".data),
          indentStr ++ ("try:".data),
          indentStr ++ ("    # Find all switches on the page".data),
          indentStr ++ ("    switches = ".data) ++ pageCtx ++ (".get_by_role(\x27switch\x27).all()".data),
          indentStr ++ ("    print(f\"[SWITCHES] Found \x7blen(switches)\x7d switches\")".data),
          indentStr ++ ("    ".data),
          indentStr ++ ("    # Find first checked switch and uncheck it".data),
          indentStr ++ ("    for i, switch in enumerate(switches):".data),
          indentStr ++ ("        if switch.is_checked():".data),
          indentStr ++ ("            print(f\"[SWITCHES] Unchecking switch \x7bi+1\x7d (was checked)\")".data),
          indentStr ++ ("            switch.uncheck()".data),
          indentStr ++ ("            time.sleep(0.3)".data),
          indentStr ++ ("            break".data),
          indentStr ++ ("    ".data),
          indentStr ++ ("    # Find first unchecked switch and check it".data),
          indentStr ++ ("    for i, switch in enumerate(switches):".data),
          indentStr ++ ("        if not switch.is_checked():".data),
          indentStr ++ ("            print(f\"[SWITCHES] Checking switch \x7bi+1\x7d (was unchecked)\")".data),
          indentStr ++ ("            switch.check()".data),
          indentStr ++ ("            time.sleep(0.3)".data),
          indentStr ++ ("            break".data),
          indentStr ++ ("    ".data),
          indentStr ++ ("    print(f\"[SWITCHES] Switches toggled successfully\")".data),
          indentStr ++ ("except Exception as e:".data),
          indentStr ++ ("    print(f\"[SWITCHES] [ERROR] Failed to toggle switches: \x7be\x7d\")".data)]
  else if commentLower == ("#optional".data) then none
  else if commentLower == ("#scrolldown".data) || commentLower == ("#scroll".data) then
    some [indentStr ++ ("# User command: scroll down".data),
          indentStr ++ ("print(f\x27[SCROLL] Scrolling down on ".data) ++ pageCtx ++ ("...\x27)".data),
          indentStr ++ pageCtx ++ (".evaluate(\x27window.scrollTo(0, document.body.scrollHeight)\x27)".data),
          indentStr ++ ("time.sleep(0.5)".data)]
  else if commentLower == ("#scrollup".data) then
    some [indentStr ++ ("# User command: scroll up".data),
          indentStr ++ ("print(f\x27[SCROLL] Scrolling up on ".data) ++ pageCtx ++ ("...\x27)".data),
          indentStr ++ pageCtx ++ (".evaluate(\x27window.scrollTo(0, 0)\x27)".data),
          indentStr ++ ("time.sleep(0.5)".data)]
  else if commentLower == ("#scrollmid".data) then
    some [indentStr ++ ("# User command: scroll to middle".data),
          indentStr ++ ("print(f\x27[SCROLL] Scrolling to middle on ".data) ++ pageCtx ++ ("...\x27)".data),
          indentStr ++ pageCtx ++ (".evaluate(\x27window.scrollTo(0, document.body.scrollHeight / 2)\x27)".data),
          indentStr ++ ("time.sleep(0.5)".data)]
  else none

end Gen

namespace Gen

open QMatch (isSpaceChar isWordChar pyStrip pyLstrip indentOf squote)

/- ------------------------------------------------------------------ -/
/- `_wrap_actions_for_resilience` (generator.py:639-896).              -/
/- ------------------------------------------------------------------ -/

/-- The mutable loop state of `_wrap_actions_for_resilience`:
output lines, `inside_with_block`, `with_block_indent`,
`next_action_optional`, `current_page_context`. -/
structure WrapState where
  out : List (List Char)
  insideWith : Bool
  withIndent : Nat
  nextOptional : Bool
  pageCtx : List Char
deriving DecidableEq

def initWrapState : WrapState :=
  { out := [], insideWith := false, withIndent := 0,
    nextOptional := false, pageCtx := ("page".data) }

/-- The `with`-block opening patterns (generator.py:687-696). -/
def withPatterns : List (List Char) :=
  [("with page.expect_popup(".data), ("with page.expect_navigation(".data),
   ("with page1.expect_popup(".data), ("with page1.expect_navigation(".data),
   ("with page2.expect_popup(".data), ("with page2.expect_navigation(".data),
   ("with page3.expect_popup(".data), ("with page3.expect_navigation(".data)]

/-- The critical-action patterns (generator.py:717-727). -/
def criticalPatterns : List (List Char) :=
  [("page.goto(".data), ("with page.expect_popup(".data),
   ("with page.expect_navigation(".data), ("check_heading(".data),
   ("= page".data), ("wait_for_navigation(".data),
   ("page1.".data), ("page2.".data), ("page3.".data)]

/-- The interaction-verb patterns (generator.py:741-750). -/
def actionPatterns : List (List Char) :=
  [(".click(".data), (".fill(".data), (".select_option(".data), (".check(".data),
   (".uncheck(".data), (".set_checked(".data), (".press(".data), (".type(".data)]

/-- `page1.` / `page2.` / `page3.` (generator.py:753). -/
def popupPatterns : List (List Char) :=
  [("page1.".data), ("page2.".data), ("page3.".data)]

/-- The classification and emission part of one loop iteration of
`_wrap_actions_for_resilience` (generator.py:716-893), applied after the
`with`-block tracking and the indentation fix: `line`, `stripped` and
`indent` are the (possibly re-indented) values the loop works with from
line 716 on.  The curly-quote `replace` calls are the ASCII identity (see
`escDQ`), so `sanitized_code = stripped` and `sanitized_line = line`. -/
def wrapCore (st : WrapState) (line stripped : List Char) (indent : Nat) : WrapState :=
  let indentStr := List.replicate indent ' '
  let isCritical0 := criticalPatterns.any (fun p => containsSub stripped p)
  let isCritical1 :=
    if st.insideWith && decide (st.withIndent < indent) && !st.nextOptional then true
    else isCritical0
  let isCritical := if st.nextOptional then false else isCritical1
  let nextOpt := if st.nextOptional then false else st.nextOptional
  let isAction := actionPatterns.any (fun p => containsSub stripped p)
  let isPopupAction := isAction && popupPatterns.any (fun p => containsSub stripped p)
  if isAction && !isCritical then
    let desc := escDQ (extractActionDescription stripped)
    { st with out := st.out ++ resilientBlock indentStr stripped desc,
              nextOptional := nextOpt }
  else if isPopupAction && isCritical then
    let desc := escDQ (extractActionDescription stripped)
    { st with out := st.out ++ popupRetryBlock indentStr stripped desc,
              nextOptional := nextOpt }
  else
    if ("#".data).isPrefixOf stripped then
      match handleSpecialCommand stripped indentStr st.pageCtx with
      | some extra =>
        { st with out := st.out ++ extra, nextOptional := nextOpt }
      | none => wrapPassthrough st line indentStr nextOpt
    else wrapPassthrough st line indentStr nextOpt
where
  /-- The `wrapped_lines.append(sanitized_line)` path with the
  popup-assignment stabilization insert (generator.py:864-892). -/
  wrapPassthrough (st : WrapState) (line indentStr : List Char) (nextOpt : Bool) :
      WrapState :=
    if containsSub line ("= page1_info.value".data) ||
        containsSub line ("= page2_info.value".data) ||
        containsSub line ("= page3_info.value".data) then
      match searchAt matchAssignVarAt line with
      | some pv =>
        { st with out := st.out ++ [line] ++ popupAssignBlock indentStr pv,
                  nextOptional := nextOpt, pageCtx := pv }
      | none =>
        { st with out := st.out ++ [line], nextOptional := nextOpt }
    else
      { st with out := st.out ++ [line], nextOptional := nextOpt }

/-- One loop iteration of `_wrap_actions_for_resilience`
(generator.py:665-894): the `#optional` marker, blank/comment passthrough,
`with`-block tracking, the indentation fix, then `wrapCore`. -/
def wrapStep (st : WrapState) (line : List Char) : WrapState :=
  let stripped := pyStrip line
  if lowerStr stripped == ("#optional".data) then
    { st with
        out := st.out ++ [List.replicate (indentOf line) ' ' ++
          ("# Next action is optional (will not fail script if element not found)".data)],
        nextOptional := true }
  else if stripped.isEmpty || ("#".data).isPrefixOf stripped then
    { st with out := st.out ++ [line] }
  else
    let indent := indentOf line
    let isWithOpen := withPatterns.any (fun p => containsSub stripped p)
    let iw := if isWithOpen then true else st.insideWith
    let wbi := if isWithOpen then indent else st.withIndent
    let st1 := { st with insideWith := iw, withIndent := wbi }
    if iw && decide (indent ≤ wbi) && !stripped.isEmpty &&
        !(("with".data).isPrefixOf stripped) then
      wrapCore st1 (List.replicate (wbi + 4) ' ' ++ stripped) stripped (wbi + 4)
    else if iw && decide (indent ≤ wbi) && !(("with".data).isPrefixOf stripped) then
      wrapCore { st1 with insideWith := false } line stripped indent
    else
      wrapCore st1 line stripped indent

/-- `_wrap_actions_for_resilience` on the split line list. -/
def wrapLines (ls : List (List Char)) : List (List Char) :=
  (ls.foldl wrapStep initWrapState).out

/-- `Generator._wrap_actions_for_resilience` (generator.py:639-896). -/
def wrapActionsForResilience (code : List Char) : List Char :=
  joinLines (wrapLines (splitLines code))

/- ------------------------------------------------------------------ -/
/- `_clean_user_code` (generator.py:515-637).                          -/
/- ------------------------------------------------------------------ -/

/-- The loop state of `_clean_user_code`: collected lines,
`in_run_function`, `base_indent`. -/
structure CleanState where
  acc : List (List Char)
  inRun : Bool
  baseIndent : Option Nat
deriving DecidableEq

def initCleanState : CleanState :=
  { acc := [], inRun := false, baseIndent := none }

/-- Browser/context/page boilerplate patterns (generator.py:563-570). -/
def boilerPatterns : List (List Char) :=
  [("browser = playwright.chromium.launch".data),
   ("context = browser.new_context".data),
   ("page = context.new_page".data),
   ("browser.launch(".data), ("new_context(".data), ("new_page(".data)]

/-- Close patterns (generator.py:574-578). -/
def closePatterns : List (List Char) :=
  [("context.close()".data), ("browser.close()".data), (".close()".data)]

/-- One loop iteration of `_clean_user_code` (generator.py:546-627). -/
def cleanStep (cst : CleanState) (line : List Char) : CleanState :=
  let stripped := pyStrip line
  if stripped.isEmpty || ("#".data).isPrefixOf stripped then cst
  else if ("import ".data).isPrefixOf stripped || ("from ".data).isPrefixOf stripped then cst
  else if containsSub stripped ("def run(".data) &&
      containsSub stripped ("playwright".data) then
    { cst with inRun := true }
  else if boilerPatterns.any (fun p => containsSub stripped p) then cst
  else if (closePatterns.any (fun p => containsSub stripped p)) &&
      !(containsSub stripped ("page".data)) then cst
  else if containsSub stripped ("with sync_playwright()".data) then cst
  else if stripped == ("run(playwright)".data) then cst
  else if ("# -----".data).isPrefixOf stripped then cst
  else if containsSub stripped ("get_by_role(\"heading\"".data) ||
      containsSub stripped ("get_by_role(\x27heading\x27".data) then
    match searchAt matchHeadingAt stripped with
    | some nm =>
      let ci0 := indentOf line
      let ci := if cst.inRun then
          match cst.baseIndent with
          | some b => ci0 - b
          | none => ci0
        else ci0
      { cst with acc := cst.acc ++
          [List.replicate ci ' ' ++ ("check_heading(page, [\"".data) ++ nm ++
            ("\"], timeout=5000)".data)] }
    | none => cst
  else if cst.inRun && !stripped.isEmpty then
    let b1 : Option Nat :=
      if cst.baseIndent == none && !(("def ".data).isPrefixOf stripped) then
        some (indentOf line)
      else cst.baseIndent
    match b1 with
    | some b =>
      if (List.replicate b ' ').isPrefixOf line then
        { cst with baseIndent := b1, acc := cst.acc ++ [line.drop b] }
      else
        { cst with baseIndent := b1, acc := cst.acc ++ [pyLstrip line] }
    | none => { cst with baseIndent := b1 }
  else cst

/-- The cleaned line list of `_clean_user_code`. -/
def cleanedLines (ls : List (List Char)) : List (List Char) :=
  (ls.foldl cleanStep initCleanState).acc

/-- `Generator._clean_user_code` (generator.py:515-637): normalize tabs,
drop recorder boilerplate, rewrite heading clicks to `check_heading`,
fall back to the tab-normalized original when nothing survives, else wrap
for resilience. -/
def cleanUserCode (code : List Char) : List Char :=
  let uc := tabNorm code
  let cleaned := cleanedLines (splitLines uc)
  let cleanedCode := joinLines cleaned
  if (pyStrip cleanedCode).isEmpty then uc
  else wrapActionsForResilience cleanedCode

end Gen

namespace Gen

open QMatch (isSpaceChar isWordChar pyStrip pyLstrip indentOf squote head_dropWhile)

/- ------------------------------------------------------------------ -/
/- Structural lemmas about stripping and indentation.                  -/
/- ------------------------------------------------------------------ -/

theorem dropWhile_replicate_space_append (n : Nat) (s : List Char) :
    (List.replicate n ' ' ++ s).dropWhile isSpaceChar = s.dropWhile isSpaceChar := by
  induction n with
  | zero => rfl
  | succ m ih =>
    rw [List.replicate_succ, List.cons_append, List.dropWhile_cons_of_pos (by rfl)]
    exact ih

theorem pyStrip_replicate_space_append (n : Nat) (s : List Char) :
    pyStrip (List.replicate n ' ' ++ s) = pyStrip s := by
  rw [pyStrip, pyStrip, dropWhile_replicate_space_append]

theorem dropWhile_eq_self_of_head {p : Char → Bool} {s : List Char}
    (h : ∀ c, s.head? = some c → p c = false) : s.dropWhile p = s := by
  cases s with
  | nil => rfl
  | cons c r =>
    rw [List.dropWhile_cons_of_neg]
    simp [h c rfl]

theorem pyStrip_idem (s : List Char) : pyStrip (pyStrip s) = pyStrip s := by
  rw [pyStrip]
  have h1 : (pyStrip s).dropWhile isSpaceChar = pyStrip s :=
    dropWhile_eq_self_of_head (fun c hc => QMatch.pyStrip_head_not_space s c hc)
  rw [h1]
  have h2 : (pyStrip s).reverse.dropWhile isSpaceChar = (pyStrip s).reverse := by
    apply dropWhile_eq_self_of_head
    intro c hc
    rw [List.head?_reverse] at hc
    exact QMatch.pyStrip_getLast_not_space s c hc
  rw [h2, List.reverse_reverse]

theorem takeWhile_replicate_space_append (n : Nat) (s : List Char) :
    (List.replicate n ' ' ++ s).takeWhile isSpaceChar =
      List.replicate n ' ' ++ s.takeWhile isSpaceChar := by
  induction n with
  | zero => rfl
  | succ m ih =>
    rw [List.replicate_succ, List.cons_append, List.takeWhile_cons_of_pos (by rfl), ih]
    simp

theorem indentOf_replicate_space_append (n : Nat) (s : List Char) :
    indentOf (List.replicate n ' ' ++ s) = n + indentOf s := by
  rw [indentOf, indentOf, takeWhile_replicate_space_append, List.length_append,
      List.length_replicate]

theorem indentOf_pyStrip (s : List Char) : indentOf (pyStrip s) = 0 := by
  rw [indentOf]
  cases hh : (pyStrip s).head? with
  | none =>
    have : pyStrip s = [] := by
      cases hps : pyStrip s with
      | nil => rfl
      | cons c r => rw [hps] at hh; simp at hh
    rw [this]
    rfl
  | some c =>
    have hc := QMatch.pyStrip_head_not_space s c hh
    cases hps : pyStrip s with
    | nil => rfl
    | cons d r =>
      rw [hps] at hh
      simp at hh
      subst hh
      rw [List.takeWhile_cons_of_neg (by simp [hc])]
      rfl

theorem pyStrip_reindent (n : Nat) (s : List Char) :
    pyStrip (List.replicate n ' ' ++ pyStrip s) = pyStrip s := by
  rw [pyStrip_replicate_space_append, pyStrip_idem]

theorem indentOf_reindent (n : Nat) (s : List Char) :
    indentOf (List.replicate n ' ' ++ pyStrip s) = n := by
  rw [indentOf_replicate_space_append, indentOf_pyStrip]
  omega

/-- `wrapCore` only appends output and consumes the optional marker: the
`with`-block tracking fields are untouched. -/
theorem wrapPassthrough_insideWith (st : WrapState) (line indentStr : List Char)
    (b : Bool) :
    (wrapCore.wrapPassthrough st line indentStr b).insideWith = st.insideWith := by
  rw [wrapCore.wrapPassthrough]
  split
  · split <;> rfl
  · rfl

theorem wrapCore_insideWith (st : WrapState) (line stripped : List Char) (indent : Nat) :
    (wrapCore st line stripped indent).insideWith = st.insideWith := by
  rw [wrapCore]
  repeat' split
  all_goals first | rfl | apply wrapPassthrough_insideWith

end Gen

namespace Gen

open QMatch (isSpaceChar isWordChar pyStrip pyLstrip indentOf squote)

set_option maxRecDepth 100000

/- ------------------------------------------------------------------ -/
/- Routing lemmas for `wrapStep`.                                      -/
/- ------------------------------------------------------------------ -/

/-- `Char.toLower` only moves characters into `a`-`z`: a character whose
code is outside that range is its own preimage. -/
theorem toLower_eq_of_not_lower {c d : Char} (hd : d.toNat < 97 ∨ 122 < d.toNat)
    (h : Char.toLower c = d) : c = d := by
  rw [Char.toLower] at h
  split at h
  · next hc =>
    exfalso
    have hv : (Char.ofNat (c.toNat + 32)).val.toNat = c.toNat + 32 := by
      have hval : Char.isValidCharNat (c.toNat + 32) := by
        left
        omega
      rw [Char.ofNat, dif_pos hval]
      rfl
    have : d.toNat = c.toNat + 32 := by rw [← h]; exact hv
    omega
  · exact h

/-- A line whose lowercasing is `#optional` starts with `#`. -/
theorem hash_of_lower_optional {s : List Char}
    (h : lowerStr s = ("#optional".data)) : ("#".data).isPrefixOf s = true := by
  cases s with
  | nil => simp [lowerStr] at h
  | cons c r =>
    have hc : Char.toLower c = '#' := by
      have := congrArg List.head? h
      simpa [lowerStr] using this
    have : c = '#' := toLower_eq_of_not_lower (by left; decide) hc
    simp [List.isPrefixOf, this]

/-- A non-comment, non-blank line with no `with`-open pattern, processed
outside any `with` block, goes straight to the classification core with
its own stripped text and indentation. -/
theorem wrapStep_route (st : WrapState) (l : List Char)
    (hiw : st.insideWith = false)
    (hnb : pyStrip l ≠ [])
    (hnc : ("#".data).isPrefixOf (pyStrip l) = false)
    (hnwo : withPatterns.any (fun p => containsSub (pyStrip l) p) = false) :
    wrapStep st l = wrapCore st l (pyStrip l) (indentOf l) := by
  have hne : (lowerStr (pyStrip l) == ("#optional".data)) = false := by
    apply Bool.eq_false_iff.mpr
    intro hbeq
    have heq := eq_of_beq hbeq
    have := hash_of_lower_optional heq
    rw [hnc] at this
    exact Bool.false_ne_true this
  have hemp : (pyStrip l).isEmpty = false := by
    cases hps : pyStrip l with
    | nil => exact absurd hps hnb
    | cons c r => rfl
  rw [wrapStep]
  rw [if_neg (by simp [hne])]
  rw [if_neg (by simp [hemp, hnc])]
  simp only [hnwo, Bool.false_eq_true, if_false, hiw, Bool.false_and, Bool.and_false]
  have hst : ({ out := st.out, insideWith := false, withIndent := st.withIndent,
                nextOptional := st.nextOptional, pageCtx := st.pageCtx } : WrapState) = st := by
    rw [← hiw]
  rw [hst]

/-- When the one-shot `#optional` marker is set, the classification core
forces the line non-critical, clears the marker, and wraps interaction
verbs in the catch-and-continue block. -/
theorem wrapCore_consume (st : WrapState) (l s : List Char) (i : Nat)
    (hopt : st.nextOptional = true) :
    (wrapCore st l s i).nextOptional = false ∧
    (actionPatterns.any (fun p => containsSub s p) = true →
      (wrapCore st l s i).out = st.out ++
        resilientBlock (List.replicate i ' ') s (escDQ (extractActionDescription s))) := by
  have hpt : ∀ (line ind : List Char) (b : Bool),
      (wrapCore.wrapPassthrough st line ind b).nextOptional = b := by
    intro line ind b
    rw [wrapCore.wrapPassthrough]
    split
    · split <;> rfl
    · rfl
  rw [wrapCore]
  simp only [hopt, if_true, Bool.not_false, Bool.and_true]
  cases hact : actionPatterns.any (fun p => containsSub s p) with
  | true =>
    rw [if_pos (by simp [hact])]
    exact ⟨rfl, fun _ => rfl⟩
  | false =>
    rw [if_neg (by simp [hact])]
    rw [if_neg (by simp [hact])]
    constructor
    · split
      · split
        · rfl
        · exact hpt _ _ _
      · exact hpt _ _ _
    · intro hcontra
      exact absurd hcontra (by simp [hact])

end Gen

namespace Gen

open QMatch (isSpaceChar isWordChar pyStrip pyLstrip indentOf squote)

set_option maxRecDepth 100000

/- ------------------------------------------------------------------ -/
/- C5: the scope of the #optional marker.                              -/
/- ------------------------------------------------------------------ -/

/-- The C5 input: `#optional`, an intervening non-action, non-comment
statement, then a popup-page click. -/
def c5Input : List (List Char) :=
  [("#optional".data), ("foo = 1".data),
   ("page1.get_by_text(\"More\").click()".data)]

/-- C5 counterexample: the claim says `#optional` makes exactly the next
action line resilient, but a non-blank, non-comment, non-action line in
between consumes the marker (generator.py:736-738), so the following
`page1` click is wrapped in the critical 5-attempt retry loop (with the
final `raise`), not in a catch-and-continue block. -/
theorem c5_counterexample :
    (("max_retries = 5".data) ∈ wrapLines c5Input) ∧
    (("            raise  # Re-raise on final attempt for critical buttons".data)
      ∈ wrapLines c5Input) ∧
    ¬ (("try:".data) ∈ wrapLines c5Input) := by
  refine ⟨by decide, by decide, by decide⟩

/-- C5 (amended): the `#optional` marker survives blank lines and
ordinary comment lines unchanged, and is consumed by the next non-blank,
non-comment line whether or not it is an action: that line is forced
non-critical — wrapped catch-and-continue when it is an interaction
verb — and the marker is cleared, so lines after it are unaffected. -/
theorem c5_optional_scope (st : WrapState) (l : List Char)
    (hiw : st.insideWith = false) (hopt : st.nextOptional = true) :
    ((pyStrip l = [] ∨ (("#".data).isPrefixOf (pyStrip l) = true ∧
        lowerStr (pyStrip l) ≠ ("#optional".data))) →
      wrapStep st l = { st with out := st.out ++ [l] }) ∧
    ((pyStrip l ≠ [] ∧ ("#".data).isPrefixOf (pyStrip l) = false ∧
        withPatterns.any (fun p => containsSub (pyStrip l) p) = false) →
      (wrapStep st l).nextOptional = false ∧
      (actionPatterns.any (fun p => containsSub (pyStrip l) p) = true →
        (wrapStep st l).out = st.out ++
          resilientBlock (List.replicate (indentOf l) ' ') (pyStrip l)
            (escDQ (extractActionDescription (pyStrip l))))) := by
  constructor
  · intro hcb
    rw [wrapStep]
    have hne : (lowerStr (pyStrip l) == ("#optional".data)) = false := by
      rcases hcb with hb | ⟨hh, hno⟩
      · rw [hb]; rfl
      · simp [hno]
    rw [if_neg (by simp [hne])]
    rw [if_pos]
    rcases hcb with hb | ⟨hh, _⟩
    · simp [hb]
    · simp [hh]
  · intro hyp
    rw [wrapStep_route st l hiw hyp.1 hyp.2.1 hyp.2.2]
    exact wrapCore_consume st l (pyStrip l) (indentOf l) hopt

/-- The wrap state right after an `#optional` marker. -/
def c5MarkedState : WrapState :=
  { initWrapState with nextOptional := true }

/-- Witness for `c5_optional_scope`: with the marker set, a comment line
passes through with the marker intact, and a plain click line is wrapped
catch-and-continue with the marker cleared. -/
theorem c5_optional_scope_witness :
    (wrapStep c5MarkedState ("# note".data) =
      { c5MarkedState with out := c5MarkedState.out ++ [("# note".data)] }) ∧
    (wrapStep c5MarkedState ("page1.get_by_text(\"More\").click()".data)).nextOptional = false ∧
    (wrapStep c5MarkedState ("page1.get_by_text(\"More\").click()".data)).out =
      c5MarkedState.out ++
        resilientBlock (List.replicate 0 ' ')
          (pyStrip ("page1.get_by_text(\"More\").click()".data))
          (escDQ (extractActionDescription
            (pyStrip ("page1.get_by_text(\"More\").click()".data)))) := by
  refine ⟨?_, ?_, ?_⟩
  · exact (c5_optional_scope c5MarkedState
      ("# note".data) rfl rfl).1 (Or.inr ⟨by decide, by decide⟩)
  · exact ((c5_optional_scope c5MarkedState
      ("page1.get_by_text(\"More\").click()".data) rfl rfl).2
      ⟨by decide, by decide, by decide⟩).1
  · have h := ((c5_optional_scope c5MarkedState
      ("page1.get_by_text(\"More\").click()".data) rfl rfl).2
      ⟨by decide, by decide, by decide⟩).2 (by decide)
    rw [h]
    have hind : indentOf ("page1.get_by_text(\"More\").click()".data) = 0 := by decide
    rw [hind]

end Gen

namespace Gen

open QMatch (isSpaceChar isWordChar pyStrip pyLstrip indentOf squote)

set_option maxRecDepth 100000

/- ------------------------------------------------------------------ -/
/- C6: the with-block indentation repair.                              -/
/- ------------------------------------------------------------------ -/

/-- The C6 input: a `with`-block opening followed by a comment line at
column 0. -/
def c6Input : List (List Char) :=
  [("with page.expect_popup() as page1_info:".data), ("# note".data)]

/-- C6 counterexample: the claim covers every non-blank line at or below
the block's opening indentation, but a comment line is passed through
unchanged (generator.py:677-680) before the repair is ever consulted: the
column-0 `# note` after the `with` opening stays at column 0 instead of
being re-indented to column 4. -/
theorem c6_counterexample :
    wrapLines c6Input =
      [("with page.expect_popup() as page1_info:".data), ("# note".data)] ∧
    ¬ (("    # note".data) ∈ wrapLines c6Input) := by
  refine ⟨by decide, by decide⟩

/-- C6 (amended): inside a `with` block, every non-blank line that is not
a comment, does not itself start with `with`, and does not open a new
`with` block, arriving at indentation at or below the block's opening
indentation, is processed exactly as if it stood one level (4 spaces)
deeper than the block's indentation, and the block is never exited. -/
theorem c6_reindent (st : WrapState) (l : List Char)
    (hin : st.insideWith = true) (hle : indentOf l ≤ st.withIndent)
    (hnb : pyStrip l ≠ [])
    (hnc : ("#".data).isPrefixOf (pyStrip l) = false)
    (hnw : ("with".data).isPrefixOf (pyStrip l) = false)
    (hnwo : withPatterns.any (fun p => containsSub (pyStrip l) p) = false) :
    wrapStep st l = wrapStep st (List.replicate (st.withIndent + 4) ' ' ++ pyStrip l) ∧
    (wrapStep st l).insideWith = true := by
  have hne : (lowerStr (pyStrip l) == ("#optional".data)) = false := by
    apply Bool.eq_false_iff.mpr
    intro hbeq
    have := hash_of_lower_optional (eq_of_beq hbeq)
    rw [hnc] at this
    exact Bool.false_ne_true this
  have hemp : (pyStrip l).isEmpty = false := by
    cases hps : pyStrip l with
    | nil => exact absurd hps hnb
    | cons c r => rfl
  have hL : wrapStep st l =
      wrapCore st (List.replicate (st.withIndent + 4) ' ' ++ pyStrip l)
        (pyStrip l) (st.withIndent + 4) := by
    rw [wrapStep]
    rw [if_neg (by simp [hne])]
    rw [if_neg (by simp [hemp, hnc])]
    simp only [hnwo, Bool.false_eq_true, if_false]
    rw [if_pos (by simp [hin, hemp, hnw, hle])]
  have hps' : pyStrip (List.replicate (st.withIndent + 4) ' ' ++ pyStrip l) =
      pyStrip l := pyStrip_reindent _ _
  have hR : wrapStep st (List.replicate (st.withIndent + 4) ' ' ++ pyStrip l) =
      wrapCore st (List.replicate (st.withIndent + 4) ' ' ++ pyStrip l)
        (pyStrip l) (st.withIndent + 4) := by
    rw [wrapStep]
    rw [hps']
    rw [if_neg (by simp [hne])]
    rw [if_neg (by simp [hemp, hnc])]
    simp only [hnwo, Bool.false_eq_true, if_false]
    rw [indentOf_reindent]
    rw [if_neg (by simp [hin])]
    rw [if_neg (by simp [hin])]
  refine ⟨hL.trans hR.symm, ?_⟩
  rw [hL, wrapCore_insideWith]
  exact hin

/-- Witness for `c6_reindent`: a column-0 click line logically inside a
column-0 `with` block is treated exactly like its 4-space re-indentation
and the block stays open. -/
theorem c6_reindent_witness :
    (wrapStep { initWrapState with insideWith := true, withIndent := 0 }
        ("page.get_by_text(\"Go\").click()".data) =
      wrapStep { initWrapState with insideWith := true, withIndent := 0 }
        (List.replicate 4 ' ' ++ pyStrip ("page.get_by_text(\"Go\").click()".data))) ∧
    (wrapStep { initWrapState with insideWith := true, withIndent := 0 }
        ("page.get_by_text(\"Go\").click()".data)).insideWith = true := by
  have h := c6_reindent { initWrapState with insideWith := true, withIndent := 0 }
    ("page.get_by_text(\"Go\").click()".data) rfl (by decide) (by decide)
    (by decide) (by decide) (by decide)
  exact h

end Gen

namespace Gen

open QMatch (isSpaceChar isWordChar pyStrip pyLstrip indentOf squote)

set_option maxRecDepth 100000

/- ------------------------------------------------------------------ -/
/- C7: the critical popup retry wrapper.                               -/
/- ------------------------------------------------------------------ -/

/-- Without a pending `#optional` marker and outside any `with` block, an
interaction verb on a popup handle is classified critical and emitted as
the popup retry block. -/
theorem wrapCore_popup (st : WrapState) (l s : List Char) (i : Nat)
    (hiw : st.insideWith = false) (hopt : st.nextOptional = false)
    (hact : actionPatterns.any (fun p => containsSub s p) = true)
    (hpop : containsSub s ("page1.".data) = true) :
    (wrapCore st l s i).out = st.out ++
      popupRetryBlock (List.replicate i ' ') s (escDQ (extractActionDescription s)) := by
  have hcrit : criticalPatterns.any (fun p => containsSub s p) = true := by
    rw [List.any_eq_true]
    refine ⟨("page1.".data), by decide, hpop⟩
  have hpp : popupPatterns.any (fun p => containsSub s p) = true := by
    rw [List.any_eq_true]
    refine ⟨("page1.".data), by decide, hpop⟩
  rw [wrapCore]
  simp only [hiw, hopt, hcrit, hact, hpp, Bool.false_and, Bool.and_true, Bool.true_and,
    Bool.false_eq_true, if_false, Bool.not_true, Bool.and_false, if_true]

/-- C7: a recorded interaction verb on popup handle `page1`, not preceded
by `#optional` and outside any `with` block, is classified critical and
wrapped in the 5-attempt retry loop with the progressive delay schedule
`[5, 10, 15, 20, 30]`; every retry is preceded by a `domcontentloaded`
wait, a scroll to the bottom and a scroll to the middle of the popup
page, and a selector click target is first scrolled into view with its
own 3000 ms timeout before `element.click()`; the emitted block is not
the catch-and-continue wrapper. -/
theorem c7_popup_retry (st : WrapState) (l : List Char)
    (hiw : st.insideWith = false) (hopt : st.nextOptional = false)
    (hnb : pyStrip l ≠ [])
    (hnc : ("#".data).isPrefixOf (pyStrip l) = false)
    (hnwo : withPatterns.any (fun p => containsSub (pyStrip l) p) = false)
    (hact : actionPatterns.any (fun p => containsSub (pyStrip l) p) = true)
    (hpop : containsSub (pyStrip l) ("page1.".data) = true) :
    (wrapStep st l).out = st.out ++
      popupRetryBlock (List.replicate (indentOf l) ' ') (pyStrip l)
        (escDQ (extractActionDescription (pyStrip l))) ∧
    ((List.replicate (indentOf l) ' ' ++ ("max_retries = 5".data)) ∈
      popupRetryBlock (List.replicate (indentOf l) ' ') (pyStrip l)
        (escDQ (extractActionDescription (pyStrip l)))) ∧
    ((List.replicate (indentOf l) ' ' ++
        ("progressive_delays = [5, 10, 15, 20, 30]  # Progressive delays in seconds".data)) ∈
      popupRetryBlock (List.replicate (indentOf l) ' ') (pyStrip l)
        (escDQ (extractActionDescription (pyStrip l)))) ∧
    List.Sublist
      [List.replicate (indentOf l) ' ' ++ ("            time.sleep(delay)".data),
       List.replicate (indentOf l) ' ' ++ ("            ".data) ++ pageVarOf (pyStrip l) ++
         (".wait_for_load_state(\x27domcontentloaded\x27, timeout=5000)".data),
       List.replicate (indentOf l) ' ' ++ ("            ".data) ++ pageVarOf (pyStrip l) ++
         (".evaluate(\x27window.scrollTo(0, document.body.scrollHeight)\x27)".data),
       List.replicate (indentOf l) ' ' ++ ("            ".data) ++ pageVarOf (pyStrip l) ++
         (".evaluate(\x27window.scrollTo(0, document.body.scrollHeight / 2)\x27)".data)]
      (popupRetryBlock (List.replicate (indentOf l) ' ') (pyStrip l)
        (escDQ (extractActionDescription (pyStrip l)))) ∧
    ((hasSelector (pyStrip l) && containsSub (pyStrip l) (".click()".data)) = true →
      List.Sublist
        [List.replicate (indentOf l) ' ' ++
           ("            element.scroll_into_view_if_needed(timeout=3000)".data),
         List.replicate (indentOf l) ' ' ++ ("        element.click()".data)]
        (popupRetryBlock (List.replicate (indentOf l) ' ') (pyStrip l)
          (escDQ (extractActionDescription (pyStrip l))))) ∧
    popupRetryBlock (List.replicate (indentOf l) ' ') (pyStrip l)
        (escDQ (extractActionDescription (pyStrip l))) ≠
      resilientBlock (List.replicate (indentOf l) ' ') (pyStrip l)
        (escDQ (extractActionDescription (pyStrip l))) := by
  refine ⟨?_, ?_, ?_, ?_, ?_, ?_⟩
  · rw [wrapStep_route st l hiw hnb hnc hnwo]
    exact wrapCore_popup st l (pyStrip l) (indentOf l) hiw hopt hact hpop
  · simp [popupRetryBlock]
  · simp [popupRetryBlock]
  · rw [popupRetryBlock]
    simp only [List.append_assoc]
    apply List.sublist_append_of_sublist_left
    apply List.Sublist.cons
    apply List.Sublist.cons
    apply List.Sublist.cons
    apply List.Sublist.cons
    apply List.Sublist.cons
    apply List.Sublist.cons
    apply List.Sublist.cons
    apply List.Sublist.cons
    apply List.Sublist.cons₂
    apply List.Sublist.cons
    apply List.Sublist.cons₂
    apply List.Sublist.cons
    apply List.Sublist.cons₂
    apply List.Sublist.cons
    apply List.Sublist.cons
    apply List.Sublist.cons₂
    exact List.nil_sublist _
  · intro hsel
    rw [popupRetryBlock]
    simp only [hsel, if_true, List.append_assoc]
    apply List.sublist_append_of_sublist_right
    apply List.sublist_append_of_sublist_left
    apply List.Sublist.cons
    apply List.Sublist.cons
    apply List.Sublist.cons
    apply List.Sublist.cons₂
    apply List.Sublist.cons
    apply List.Sublist.cons
    apply List.Sublist.cons
    apply List.Sublist.cons
    apply List.Sublist.cons
    apply List.Sublist.cons₂
    exact List.nil_sublist _
  · intro heq
    have hlen := congrArg List.length heq
    rw [popupRetryBlock, resilientBlock] at hlen
    simp only [List.length_append, List.length_cons] at hlen
    split at hlen <;> split at hlen <;> simp at hlen <;> omega

end Gen

namespace Gen

open QMatch (pyStrip indentOf)

set_option maxRecDepth 100000

/-- A recorded popup-page click for the C7 witness (scenario E's action). -/
def c7Line : List Char :=
  ("page1.get_by_role(\"button\", name=\"Continue\").click()".data)

/-- Witness for `c7_popup_retry` at a concrete recorded `page1` click. -/
theorem c7_popup_retry_witness :
    (wrapStep initWrapState c7Line).out = initWrapState.out ++
      popupRetryBlock (List.replicate (indentOf c7Line) ' ') (pyStrip c7Line)
        (escDQ (extractActionDescription (pyStrip c7Line))) ∧
    List.Sublist
      [List.replicate (indentOf c7Line) ' ' ++
         ("            element.scroll_into_view_if_needed(timeout=3000)".data),
       List.replicate (indentOf c7Line) ' ' ++ ("        element.click()".data)]
      (popupRetryBlock (List.replicate (indentOf c7Line) ' ') (pyStrip c7Line)
        (escDQ (extractActionDescription (pyStrip c7Line)))) := by
  have h := c7_popup_retry initWrapState c7Line rfl rfl (by decide) (by decide)
    (by decide) (by decide) (by decide)
  exact ⟨h.1, h.2.2.2.2.1 (by decide)⟩

end Gen

namespace Gen

open QMatch (isSpaceChar isWordChar pyStrip pyLstrip indentOf squote)

set_option maxRecDepth 100000

/- ------------------------------------------------------------------ -/
/- C8: heading clicks become check_heading calls.                      -/
/- ------------------------------------------------------------------ -/

/-- The single line `_clean_user_code` emits for a heading click
(generator.py:607): `check_heading(page, ["NAME"], timeout=5000)`. -/
def checkHeadingCore (nm : List Char) : List Char :=
  ("check_heading(page, [\"".data) ++ nm ++ ("\"], timeout=5000)".data)

/-- `checkHeadingCore` at the computed indentation. -/
def checkHeadingLine (ci : Nat) (nm : List Char) : List Char :=
  List.replicate ci ' ' ++ checkHeadingCore nm

theorem pyStrip_eq_self (s : List Char)
    (h1 : ∀ c, s.head? = some c → isSpaceChar c = false)
    (h2 : ∀ c, s.getLast? = some c → isSpaceChar c = false) : pyStrip s = s := by
  rw [QMatch.pyStrip]
  rw [dropWhile_eq_self_of_head h1]
  rw [dropWhile_eq_self_of_head (fun c hc => h2 c (by rwa [List.head?_reverse] at hc))]
  exact List.reverse_reverse s

theorem pyStrip_checkHeadingCore (nm : List Char) :
    pyStrip (checkHeadingCore nm) = checkHeadingCore nm := by
  apply pyStrip_eq_self
  · intro c hc
    rw [checkHeadingCore] at hc
    simp at hc
    rw [← hc]
    rfl
  · intro c hc
    rw [checkHeadingCore] at hc
    rw [List.append_assoc, List.getLast?_append] at hc
    have : (nm ++ ("\"], timeout=5000)".data)).getLast? = some ')' := by
      rw [List.getLast?_append]
      rfl
    rw [this] at hc
    simp at hc
    rw [← hc]
    rfl

theorem containsSub_of_prefix {s p : List Char} (h : p.isPrefixOf s = true) :
    containsSub s p = true := by
  cases s with
  | nil =>
    rw [containsSub, anyPos, h]
  | cons c t =>
    rw [containsSub, anyPos, h]
    rfl

/-- All `_clean_user_code` gates for a heading-click line in a
single-line, not-inside-`def run` input, bundled: the claim's "recorded
line that invokes a heading-role lookup" with an extractable name, not
caught by any earlier drop rule, whose rewritten `check_heading` line is
itself inert for the resilience pass. -/
def headingLineOK (l nm : List Char) : Bool :=
  (tabNorm l == l) &&
  (splitLines l == [l]) &&
  !(pyStrip l).isEmpty &&
  !(("#".data).isPrefixOf (pyStrip l)) &&
  !(("import ".data).isPrefixOf (pyStrip l)) &&
  !(("from ".data).isPrefixOf (pyStrip l)) &&
  !(containsSub (pyStrip l) ("def run(".data) && containsSub (pyStrip l) ("playwright".data)) &&
  !(boilerPatterns.any (fun p => containsSub (pyStrip l) p)) &&
  !((closePatterns.any (fun p => containsSub (pyStrip l) p)) && !(containsSub (pyStrip l) ("page".data))) &&
  !(containsSub (pyStrip l) ("with sync_playwright()".data)) &&
  !(pyStrip l == ("run(playwright)".data)) &&
  (containsSub (pyStrip l) ("get_by_role(\"heading\"".data) ||
    containsSub (pyStrip l) ("get_by_role(\x27heading\x27".data)) &&
  (searchAt matchHeadingAt (pyStrip l) == some nm) &&
  !(withPatterns.any (fun p => containsSub (checkHeadingCore nm) p)) &&
  !(actionPatterns.any (fun p => containsSub (checkHeadingCore nm) p)) &&
  !(containsSub (checkHeadingLine (indentOf l) nm) ("= page1_info.value".data) ||
    containsSub (checkHeadingLine (indentOf l) nm) ("= page2_info.value".data) ||
    containsSub (checkHeadingLine (indentOf l) nm) ("= page3_info.value".data)) &&
  (splitLines (checkHeadingLine (indentOf l) nm) == [checkHeadingLine (indentOf l) nm])

/-- The C8 drop-context input: inside `def run`, a goto line survives and
a heading click whose name cannot be extracted is dropped. -/
def c8DropInput : List Char :=
  ("def run(playwright):\n    page.goto(\"https://a.com\")\n    page.get_by_role(\"heading\").click()".data)

end Gen

namespace Gen

open QMatch (isSpaceChar isWordChar pyStrip pyLstrip indentOf squote)

set_option maxRecDepth 100000

theorem joinLines_single (x : List Char) : joinLines [x] = x := by
  simp [joinLines, List.intercalate]

/-- C8: a recorded heading-role-lookup-and-click line with an extractable
name is rewritten by the transformer into exactly one
`check_heading(page, ["NAME"], timeout=5000)` output line (first
conjunct), and a heading line whose name cannot be extracted is dropped
and contributes no output line (second conjunct: in the `c8DropInput`
context only the goto line survives). -/
theorem c8_heading_rewrite (l nm : List Char) (hok : headingLineOK l nm = true) :
    cleanUserCode l = checkHeadingLine (indentOf l) nm ∧
    cleanUserCode c8DropInput = ("page.goto(\"https://a.com\")".data) := by
  simp only [headingLineOK, Bool.and_eq_true, and_assoc, beq_iff_eq,
    Bool.not_eq_true', Bool.or_eq_true, Bool.and_eq_false_iff] at hok
  obtain ⟨htab, hsplit, hemp, hnc, himp, hfrom, hdef, hboiler, hclose, hsync,
    hrunpw, hgate, hname, hwo, hao, hassign, hsplit2⟩ := hok
  have hrunpw' : pyStrip l ≠ ("run(playwright)".data) := by
    intro he
    rw [he] at hrunpw
    simp at hrunpw
  have hdash : ("# -----".data).isPrefixOf (pyStrip l) = false := by
    apply Bool.eq_false_iff.mpr
    intro hp
    have h1 : ("#".data).isPrefixOf (pyStrip l) = true := by
      have h2 := List.isPrefixOf_iff_prefix.mp hp
      have h0 : ("#".data) <+: ("# -----".data) := by decide
      exact List.isPrefixOf_iff_prefix.mpr (h0.trans h2)
    rw [hnc] at h1
    exact Bool.false_ne_true h1
  have hclean : cleanedLines (splitLines (tabNorm l)) =
      [checkHeadingLine (indentOf l) nm] := by
    rw [htab, hsplit, cleanedLines]
    simp only [List.foldl_cons, List.foldl_nil]
    rw [cleanStep]
    rw [if_neg (by simp [hemp, hnc])]
    rw [if_neg (by simp [himp, hfrom])]
    rw [if_neg (by rcases hdef with h | h <;> simp [h])]
    rw [if_neg (by simp [hboiler])]
    rw [if_neg (by rcases hclose with h | h <;> simp [h])]
    rw [if_neg (by simp [hsync])]
    rw [if_neg (by simp [hrunpw'])]
    rw [if_neg (by simp [hdash])]
    rw [if_pos (by simp [hgate])]
    rw [hname]
    simp only [initCleanState]
    simp [checkHeadingLine, checkHeadingCore, List.append_assoc]
  have hstrip : pyStrip (checkHeadingLine (indentOf l) nm) = checkHeadingCore nm := by
    rw [checkHeadingLine, pyStrip_replicate_space_append, pyStrip_checkHeadingCore]
  have hcorene : (checkHeadingCore nm).isEmpty = false := rfl
  have hcorenc : ("#".data).isPrefixOf (checkHeadingCore nm) = false := rfl
  have hind : indentOf (checkHeadingLine (indentOf l) nm) = indentOf l := by
    rw [checkHeadingLine, indentOf_replicate_space_append]
    have h0 : indentOf (checkHeadingCore nm) = 0 := rfl
    rw [h0]
    omega
  have hwrap : wrapLines [checkHeadingLine (indentOf l) nm] =
      [checkHeadingLine (indentOf l) nm] := by
    rw [wrapLines]
    simp only [List.foldl_cons, List.foldl_nil]
    rw [wrapStep_route initWrapState (checkHeadingLine (indentOf l) nm) rfl
      (by rw [hstrip]; intro hcontra; exact absurd (congrArg List.isEmpty hcontra) (by rw [hcorene]; simp))
      (by rw [hstrip]; exact hcorenc)
      (by rw [hstrip]; exact hwo)]
    rw [hstrip, wrapCore]
    rw [if_neg (by simp [hao])]
    rw [if_neg (by simp [hao])]
    rw [if_neg (by simp [hcorenc])]
    rw [wrapCore.wrapPassthrough]
    rw [if_neg (by simp [hassign])]
    rfl
  have hpjoin : pyStrip (joinLines [checkHeadingLine (indentOf l) nm]) =
      checkHeadingCore nm := by
    rw [joinLines_single, hstrip]
  rw [cleanUserCode]
  simp only []
  rw [htab] at hclean ⊢
  rw [hclean, joinLines_single]
  constructor
  · rw [if_neg (by rw [hstrip]; simp [hcorene])]
    rw [wrapActionsForResilience]
    rw [hsplit2, hwrap, joinLines_single]
  · decide

/-- Witness for `c8_heading_rewrite` at §8 scenario C. -/
theorem c8_heading_rewrite_witness :
    headingLineOK ("page.get_by_role(\"heading\", name=\"Step 2\").click()".data)
      ("Step 2".data) = true ∧
    cleanUserCode ("page.get_by_role(\"heading\", name=\"Step 2\").click()".data) =
      ("check_heading(page, [\"Step 2\"], timeout=5000)".data) := by
  refine ⟨by decide, ?_⟩
  have h := (c8_heading_rewrite
    ("page.get_by_role(\"heading\", name=\"Step 2\").click()".data)
    ("Step 2".data) (by decide)).1
  rw [h]
  decide


/- ------------------------------------------------------------------ -/
/- C10: fallback to the tab-normalized original when every line drops. -/
/- ------------------------------------------------------------------ -/

/-- A line that `_clean_user_code` drops without touching the output
list: blank or comment, import, `def run(...)` header (state change
only), browser boilerplate, close call without `page`,
`with sync_playwright()` context line, or the `run(playwright)` call. -/
def droppedLine (l : List Char) : Bool :=
  ((pyStrip l).isEmpty || ("#".data).isPrefixOf (pyStrip l)) ||
  (("import ".data).isPrefixOf (pyStrip l) || ("from ".data).isPrefixOf (pyStrip l)) ||
  (containsSub (pyStrip l) ("def run(".data) &&
    containsSub (pyStrip l) ("playwright".data)) ||
  (boilerPatterns.any fun p => containsSub (pyStrip l) p) ||
  ((closePatterns.any fun p => containsSub (pyStrip l) p) &&
    !containsSub (pyStrip l) ("page".data)) ||
  containsSub (pyStrip l) ("with sync_playwright()".data) ||
  (pyStrip l == ("run(playwright)".data))

theorem cleanStep_acc_of_dropped (cst : CleanState) (l : List Char)
    (h : droppedLine l = true) : (cleanStep cst l).acc = cst.acc := by
  rw [cleanStep]
  by_cases h1 : ((pyStrip l).isEmpty || ("#".data).isPrefixOf (pyStrip l)) = true
  · rw [if_pos h1]
  · rw [if_neg h1]
    by_cases h2 : (("import ".data).isPrefixOf (pyStrip l) ||
        ("from ".data).isPrefixOf (pyStrip l)) = true
    · rw [if_pos h2]
    · rw [if_neg h2]
      by_cases h3 : (containsSub (pyStrip l) ("def run(".data) &&
          containsSub (pyStrip l) ("playwright".data)) = true
      · rw [if_pos h3]
      · rw [if_neg h3]
        by_cases h4 : (boilerPatterns.any fun p => containsSub (pyStrip l) p) = true
        · rw [if_pos h4]
        · rw [if_neg h4]
          by_cases h5 : ((closePatterns.any fun p => containsSub (pyStrip l) p) &&
              !containsSub (pyStrip l) ("page".data)) = true
          · rw [if_pos h5]
          · rw [if_neg h5]
            by_cases h6 : containsSub (pyStrip l) ("with sync_playwright()".data) = true
            · rw [if_pos h6]
            · rw [if_neg h6]
              by_cases h7 : ((pyStrip l) == ("run(playwright)".data)) = true
              · rw [if_pos h7]
              · exfalso
                have e1 := Bool.eq_false_iff.mpr h1
                have e2 := Bool.eq_false_iff.mpr h2
                have e3 := Bool.eq_false_iff.mpr h3
                have e4 := Bool.eq_false_iff.mpr h4
                have e5 := Bool.eq_false_iff.mpr h5
                have e6 := Bool.eq_false_iff.mpr h6
                have e7 := Bool.eq_false_iff.mpr h7
                rw [droppedLine, e1, e2, e3, e4, e5, e6, e7] at h
                simp at h

theorem foldl_acc_of_all_dropped (ls : List (List Char)) :
    ∀ cst : CleanState, (∀ l ∈ ls, droppedLine l = true) →
      (ls.foldl cleanStep cst).acc = cst.acc := by
  induction ls with
  | nil => intro cst h; rfl
  | cons a t ih =>
    intro cst h
    simp only [List.foldl_cons]
    rw [ih (cleanStep cst a) (fun l hl => h l (List.mem_cons_of_mem a hl))]
    exact cleanStep_acc_of_dropped cst a (h a (List.mem_cons_self a t))

/-- The §8 scenario D style all-boilerplate recording, with a literal
tab character indenting the launch and close lines. -/
def c10In : List Char :=
  ("import re\nfrom x import y\n\n# comment\ndef run(playwright):\n\tbrowser = playwright.chromium.launch()\n\tcontext.close()\nwith sync_playwright() as playwright:\n    run(playwright)".data)

/-- C10: when every line of the tab-normalized input is dropped by the
cleaning pass (blanks, comments, imports, `def run` header, browser
boilerplate, close calls, `with sync_playwright()` and `run(playwright)`),
`_clean_user_code` returns the tab-normalized original text unchanged:
no boilerplate is removed and no resilience wrapping is applied. -/
theorem c10_all_dropped_fallback (code : List Char)
    (h : ∀ l ∈ splitLines (tabNorm code), droppedLine l = true) :
    cleanUserCode code = tabNorm code := by
  have hacc : cleanedLines (splitLines (tabNorm code)) = [] := by
    rw [cleanedLines]
    rw [foldl_acc_of_all_dropped (splitLines (tabNorm code)) initCleanState h]
    rfl
  rw [cleanUserCode]
  rw [hacc]
  rw [if_pos (by decide)]

/-- Witness for `c10_all_dropped_fallback` on `c10In`: every line drops
and the result is the original with each tab turned into four spaces. -/
theorem c10_all_dropped_fallback_witness :
    (∀ l ∈ splitLines (tabNorm c10In), droppedLine l = true) ∧
    cleanUserCode c10In = tabNorm c10In ∧ c10In ≠ tabNorm c10In := by
  refine ⟨by decide, c10_all_dropped_fallback c10In (by decide), by decide⟩

end Gen
